import Mathlib

/-!
Verification of `minijinja-code-examples` (src/minijinja-exploration/src/main.rs)
against its natural-language specification.

The example code uses the minijinja templating engine.  Functions defined in
`main.rs` itself (`modify`, `mathematical_fold`, `slugify`, `Point::get_value`)
are embedded directly from the source.  Engine facilities that the examples
call but whose code is not in this repository (the `Kwargs` bag, the call
binding of `Rest`/`from_args`, template rendering, expression evaluation and
the undeclared-variable analyzer) are modelled from the specification, as
marked in the doc comments below.
-/

namespace MiniJinja

/-- Modelled from the spec (§3 Value model): the engine's tagged dynamic value
type.  The variants used by the examples are modelled; `f32`/`f64` components
are represented exactly as rationals (the example stores only exactly
representable constants and performs no float arithmetic).  A `Kwargs` bag
travelling as a value carries its string-keyed entries. -/
inductive Value where
  | vnone : Value
  | bool (b : Bool) : Value
  | int (i : Int) : Value
  | float (q : Rat) : Value
  | str (s : String) : Value
  | kwargsV (entries : List (String × Value)) : Value
  | undef : Value

/-- Modelled from the spec (§7): the error kinds surfaced by the engine.
`panic` models a Rust `unwrap()` failure (a crash, not an engine error). -/
inductive EKind where
  | syntaxError | undefinedError | unknownFilter | typeError
  | argumentTypeError | missingArgument | unusedKeywordArgument
  | invalidContext | panic
deriving Repr, DecidableEq

/-- `Value::as_str`: the string payload when the value is a string. -/
def Value.as_str : Value → Option String
  | .str s => some s
  | _ => none

/-- `Value::as_i64`: the integer payload when the value is an integer. -/
def Value.as_i64 : Value → Option Int
  | .int i => some i
  | _ => none

/-- Modelled from the spec (§3, §4.3): a `Kwargs` bag is a string-keyed mapping
of values that tracks which keys have been read via its accessor. -/
structure Kwargs where
  entries : List (String × Value)
  used : List String

/-- Modelled from the spec (§4.3): reading a key through the accessor marks it
as used, whether or not it is present. -/
def Kwargs.getRaw (k : Kwargs) (key : String) : Option Value × Kwargs :=
  (k.entries.lookup key, { k with used := key :: k.used })

/-- Modelled from the spec (§4.3 rule 6): `Kwargs::get::<Option<bool>>` — a
missing key yields `none`; a present key must hold a bool, otherwise the call
fails with `ArgumentTypeError`. -/
def Kwargs.getOptBool (k : Kwargs) (key : String) :
    Except EKind (Option Bool × Kwargs) :=
  match k.getRaw key with
  | (none, k) => .ok (none, k)
  | (some (.bool b), k) => .ok (some b, k)
  | (some _, _) => .error .argumentTypeError

/-- Modelled from the spec (§4.3 rule 6): `Kwargs::get::<Option<usize>>` — a
missing key yields `none`; a present key must hold a non-negative integer. -/
def Kwargs.getOptNat (k : Kwargs) (key : String) :
    Except EKind (Option Nat × Kwargs) :=
  match k.getRaw key with
  | (none, k) => .ok (none, k)
  | (some (.int i), k) => if 0 ≤ i then .ok (some i.toNat, k) else .error .argumentTypeError
  | (some _, _) => .error .argumentTypeError

/-- Modelled from the spec (§4.3 rule 6): `Kwargs::get::<Option<&str>>` — a
missing key yields `none`; a present key must hold a string. -/
def Kwargs.getOptStr (k : Kwargs) (key : String) :
    Except EKind (Option String × Kwargs) :=
  match k.getRaw key with
  | (none, k) => .ok (none, k)
  | (some (.str s), k) => .ok (some s, k)
  | (some _, _) => .error .argumentTypeError

/-- Modelled from the spec (§4.3 rule 4): after binding, any incoming keyword
argument that was never read causes an `UnusedKeywordArgument` failure. -/
def Kwargs.assert_all_used (k : Kwargs) : Except EKind Unit :=
  if k.entries.all (fun e => k.used.contains e.1) then .ok () else .error .unusedKeywordArgument

/-- Embedded from `main.rs` lines 185–196: `modify(values, options)` reads the
optional `reverse` (bool) and `limit` (usize) keyword arguments, reverses then
truncates, and asserts all keyword arguments were used. -/
def modify (values : List Value) (options : Kwargs) : Except EKind (List Value) := do
  let (r, options) ← options.getOptBool "reverse"
  let values := if r = some true then values.reverse else values
  let (l, options) ← options.getOptNat "limit"
  let values := match l with
    | some n => values.take n
    | none => values
  let _ ← options.assert_all_used
  pure values

/-- Modelled from the spec (§4.3 rule 3): the `Rest` collector gathers every
positional argument; keyword arguments at the call site travel as one trailing
`Kwargs` value.  `from_args::<(&[Value], Kwargs)>` splits them back apart: if
the last collected value is a kwargs bag it becomes the (fresh, nothing yet
read) `Kwargs`, and the remaining values are the positional slice; otherwise
the bag is empty. -/
def from_args_split (in_args : List Value) : List Value × Kwargs :=
  match in_args.getLast? with
  | some (.kwargsV es) => (in_args.dropLast, ⟨es, []⟩)
  | _ => (in_args, ⟨[], []⟩)

/-- Embedded from `main.rs` lines 203–205: the `*=` loop body; `as_i64()` is
`unwrap`ped, so a non-integer positional argument is a crash (`panic`). -/
def foldMulFrom (args : List Value) (accum : Int) : Except EKind Int :=
  match args with
  | [] => .ok accum
  | v :: rest =>
    match v.as_i64 with
    | some i => foldMulFrom rest (accum * i)
    | none => .error .panic

/-- Embedded from `main.rs` lines 209–211: the `+=` loop body. -/
def foldAddFrom (args : List Value) (accum : Int) : Except EKind Int :=
  match args with
  | [] => .ok accum
  | v :: rest =>
    match v.as_i64 with
    | some i => foldAddFrom rest (accum + i)
    | none => .error .panic

/-- Embedded from `main.rs` lines 198–214: `mathematical_fold(in_args)` splits
its `Rest` collector into a positional slice and a `Kwargs` bag, starts with
`accum = 1`, multiplies the positionals into it when `op` is the string
`"mul"`, then (reading `op` again) resets to `0` and sums them when `op` is
the string `"add"`. -/
def mathematical_fold (in_args : List Value) : Except EKind Value := do
  let (args, kwargs) := from_args_split in_args
  let accum : Int := 1
  let (op₁, kwargs) ← kwargs.getOptStr "op"
  let accum ← if op₁ = some "mul" then foldMulFrom args accum else pure accum
  let (op₂, _kwargs) ← kwargs.getOptStr "op"
  let accum ← if op₂ = some "add" then foldAddFrom args 0 else pure accum
  pure (Value.int accum)

/-- Embedded from `main.rs` lines 22–23: `struct Point(f32, f32, f32)`.  The
three `f32` components are modelled exactly as rationals (the example stores
only exactly representable constants and performs no float arithmetic). -/
structure Point where
  c0 : Rat
  c1 : Rat
  c2 : Rat

/-- Embedded from `main.rs` lines 26–33: the `Object::get_value`
implementation for `Point` — a non-string key or a key other than
`"x"`/`"y"`/`"z"` yields nothing (absence, never an error). -/
def Point.get_value (p : Point) (key : Value) : Option Value :=
  match key.as_str with
  | none => none
  | some s =>
    match s with
    | "x" => some (.float p.c0)
    | "y" => some (.float p.c1)
    | "z" => some (.float p.c2)
    | _ => none

/-- Embedded from `main.rs` lines 35–37: `Object::enumerate` for `Point`. -/
def Point.enumerate : List String := ["x", "y", "z"]

/-! ### The `slugify` filter

Rust strings are modelled as lists of Unicode scalar values (`List Nat`);
`str::to_lowercase` is modelled by the full Unicode lowercase mapping
(including the one-to-many mappings and the contextual `Final_Sigma` rule),
and `char::is_whitespace` by the full Unicode white-space table. -/

/-- Modelled from the Unicode character database (version 14.0.0): the full
(one-to-many) lowercase mapping used by `str::to_lowercase`, listed as
`codepoint ↦ lowered codepoints` for every codepoint the mapping changes,
split in chunks of 100 entries to keep elaboration cheap. -/
def lowerChunk0 : List (Nat × List Nat) := [
  (65, [97]), (66, [98]), (67, [99]), (68, [100]), (69, [101]), (70, [102]),
  (71, [103]), (72, [104]), (73, [105]), (74, [106]), (75, [107]), (76, [108]),
  (77, [109]), (78, [110]), (79, [111]), (80, [112]), (81, [113]), (82, [114]),
  (83, [115]), (84, [116]), (85, [117]), (86, [118]), (87, [119]), (88, [120]),
  (89, [121]), (90, [122]), (192, [224]), (193, [225]), (194, [226]), (195, [227]),
  (196, [228]), (197, [229]), (198, [230]), (199, [231]), (200, [232]), (201, [233]),
  (202, [234]), (203, [235]), (204, [236]), (205, [237]), (206, [238]), (207, [239]),
  (208, [240]), (209, [241]), (210, [242]), (211, [243]), (212, [244]), (213, [245]),
  (214, [246]), (216, [248]), (217, [249]), (218, [250]), (219, [251]), (220, [252]),
  (221, [253]), (222, [254]), (256, [257]), (258, [259]), (260, [261]), (262, [263]),
  (264, [265]), (266, [267]), (268, [269]), (270, [271]), (272, [273]), (274, [275]),
  (276, [277]), (278, [279]), (280, [281]), (282, [283]), (284, [285]), (286, [287]),
  (288, [289]), (290, [291]), (292, [293]), (294, [295]), (296, [297]), (298, [299]),
  (300, [301]), (302, [303]), (304, [105, 775]), (306, [307]), (308, [309]), (310, [311]),
  (313, [314]), (315, [316]), (317, [318]), (319, [320]), (321, [322]), (323, [324]),
  (325, [326]), (327, [328]), (330, [331]), (332, [333]), (334, [335]), (336, [337]),
  (338, [339]), (340, [341]), (342, [343]), (344, [345]) ]

def lowerChunk1 : List (Nat × List Nat) := [
  (346, [347]), (348, [349]), (350, [351]), (352, [353]), (354, [355]), (356, [357]),
  (358, [359]), (360, [361]), (362, [363]), (364, [365]), (366, [367]), (368, [369]),
  (370, [371]), (372, [373]), (374, [375]), (376, [255]), (377, [378]), (379, [380]),
  (381, [382]), (385, [595]), (386, [387]), (388, [389]), (390, [596]), (391, [392]),
  (393, [598]), (394, [599]), (395, [396]), (398, [477]), (399, [601]), (400, [603]),
  (401, [402]), (403, [608]), (404, [611]), (406, [617]), (407, [616]), (408, [409]),
  (412, [623]), (413, [626]), (415, [629]), (416, [417]), (418, [419]), (420, [421]),
  (422, [640]), (423, [424]), (425, [643]), (428, [429]), (430, [648]), (431, [432]),
  (433, [650]), (434, [651]), (435, [436]), (437, [438]), (439, [658]), (440, [441]),
  (444, [445]), (452, [454]), (453, [454]), (455, [457]), (456, [457]), (458, [460]),
  (459, [460]), (461, [462]), (463, [464]), (465, [466]), (467, [468]), (469, [470]),
  (471, [472]), (473, [474]), (475, [476]), (478, [479]), (480, [481]), (482, [483]),
  (484, [485]), (486, [487]), (488, [489]), (490, [491]), (492, [493]), (494, [495]),
  (497, [499]), (498, [499]), (500, [501]), (502, [405]), (503, [447]), (504, [505]),
  (506, [507]), (508, [509]), (510, [511]), (512, [513]), (514, [515]), (516, [517]),
  (518, [519]), (520, [521]), (522, [523]), (524, [525]), (526, [527]), (528, [529]),
  (530, [531]), (532, [533]), (534, [535]), (536, [537]) ]

def lowerChunk2 : List (Nat × List Nat) := [
  (538, [539]), (540, [541]), (542, [543]), (544, [414]), (546, [547]), (548, [549]),
  (550, [551]), (552, [553]), (554, [555]), (556, [557]), (558, [559]), (560, [561]),
  (562, [563]), (570, [11365]), (571, [572]), (573, [410]), (574, [11366]), (577, [578]),
  (579, [384]), (580, [649]), (581, [652]), (582, [583]), (584, [585]), (586, [587]),
  (588, [589]), (590, [591]), (880, [881]), (882, [883]), (886, [887]), (895, [1011]),
  (902, [940]), (904, [941]), (905, [942]), (906, [943]), (908, [972]), (910, [973]),
  (911, [974]), (913, [945]), (914, [946]), (915, [947]), (916, [948]), (917, [949]),
  (918, [950]), (919, [951]), (920, [952]), (921, [953]), (922, [954]), (923, [955]),
  (924, [956]), (925, [957]), (926, [958]), (927, [959]), (928, [960]), (929, [961]),
  (931, [963]), (932, [964]), (933, [965]), (934, [966]), (935, [967]), (936, [968]),
  (937, [969]), (938, [970]), (939, [971]), (975, [983]), (984, [985]), (986, [987]),
  (988, [989]), (990, [991]), (992, [993]), (994, [995]), (996, [997]), (998, [999]),
  (1000, [1001]), (1002, [1003]), (1004, [1005]), (1006, [1007]), (1012, [952]), (1015, [1016]),
  (1017, [1010]), (1018, [1019]), (1021, [891]), (1022, [892]), (1023, [893]), (1024, [1104]),
  (1025, [1105]), (1026, [1106]), (1027, [1107]), (1028, [1108]), (1029, [1109]), (1030, [1110]),
  (1031, [1111]), (1032, [1112]), (1033, [1113]), (1034, [1114]), (1035, [1115]), (1036, [1116]),
  (1037, [1117]), (1038, [1118]), (1039, [1119]), (1040, [1072]) ]

def lowerChunk3 : List (Nat × List Nat) := [
  (1041, [1073]), (1042, [1074]), (1043, [1075]), (1044, [1076]), (1045, [1077]), (1046, [1078]),
  (1047, [1079]), (1048, [1080]), (1049, [1081]), (1050, [1082]), (1051, [1083]), (1052, [1084]),
  (1053, [1085]), (1054, [1086]), (1055, [1087]), (1056, [1088]), (1057, [1089]), (1058, [1090]),
  (1059, [1091]), (1060, [1092]), (1061, [1093]), (1062, [1094]), (1063, [1095]), (1064, [1096]),
  (1065, [1097]), (1066, [1098]), (1067, [1099]), (1068, [1100]), (1069, [1101]), (1070, [1102]),
  (1071, [1103]), (1120, [1121]), (1122, [1123]), (1124, [1125]), (1126, [1127]), (1128, [1129]),
  (1130, [1131]), (1132, [1133]), (1134, [1135]), (1136, [1137]), (1138, [1139]), (1140, [1141]),
  (1142, [1143]), (1144, [1145]), (1146, [1147]), (1148, [1149]), (1150, [1151]), (1152, [1153]),
  (1162, [1163]), (1164, [1165]), (1166, [1167]), (1168, [1169]), (1170, [1171]), (1172, [1173]),
  (1174, [1175]), (1176, [1177]), (1178, [1179]), (1180, [1181]), (1182, [1183]), (1184, [1185]),
  (1186, [1187]), (1188, [1189]), (1190, [1191]), (1192, [1193]), (1194, [1195]), (1196, [1197]),
  (1198, [1199]), (1200, [1201]), (1202, [1203]), (1204, [1205]), (1206, [1207]), (1208, [1209]),
  (1210, [1211]), (1212, [1213]), (1214, [1215]), (1216, [1231]), (1217, [1218]), (1219, [1220]),
  (1221, [1222]), (1223, [1224]), (1225, [1226]), (1227, [1228]), (1229, [1230]), (1232, [1233]),
  (1234, [1235]), (1236, [1237]), (1238, [1239]), (1240, [1241]), (1242, [1243]), (1244, [1245]),
  (1246, [1247]), (1248, [1249]), (1250, [1251]), (1252, [1253]), (1254, [1255]), (1256, [1257]),
  (1258, [1259]), (1260, [1261]), (1262, [1263]), (1264, [1265]) ]

def lowerChunk4 : List (Nat × List Nat) := [
  (1266, [1267]), (1268, [1269]), (1270, [1271]), (1272, [1273]), (1274, [1275]), (1276, [1277]),
  (1278, [1279]), (1280, [1281]), (1282, [1283]), (1284, [1285]), (1286, [1287]), (1288, [1289]),
  (1290, [1291]), (1292, [1293]), (1294, [1295]), (1296, [1297]), (1298, [1299]), (1300, [1301]),
  (1302, [1303]), (1304, [1305]), (1306, [1307]), (1308, [1309]), (1310, [1311]), (1312, [1313]),
  (1314, [1315]), (1316, [1317]), (1318, [1319]), (1320, [1321]), (1322, [1323]), (1324, [1325]),
  (1326, [1327]), (1329, [1377]), (1330, [1378]), (1331, [1379]), (1332, [1380]), (1333, [1381]),
  (1334, [1382]), (1335, [1383]), (1336, [1384]), (1337, [1385]), (1338, [1386]), (1339, [1387]),
  (1340, [1388]), (1341, [1389]), (1342, [1390]), (1343, [1391]), (1344, [1392]), (1345, [1393]),
  (1346, [1394]), (1347, [1395]), (1348, [1396]), (1349, [1397]), (1350, [1398]), (1351, [1399]),
  (1352, [1400]), (1353, [1401]), (1354, [1402]), (1355, [1403]), (1356, [1404]), (1357, [1405]),
  (1358, [1406]), (1359, [1407]), (1360, [1408]), (1361, [1409]), (1362, [1410]), (1363, [1411]),
  (1364, [1412]), (1365, [1413]), (1366, [1414]), (4256, [11520]), (4257, [11521]), (4258, [11522]),
  (4259, [11523]), (4260, [11524]), (4261, [11525]), (4262, [11526]), (4263, [11527]), (4264, [11528]),
  (4265, [11529]), (4266, [11530]), (4267, [11531]), (4268, [11532]), (4269, [11533]), (4270, [11534]),
  (4271, [11535]), (4272, [11536]), (4273, [11537]), (4274, [11538]), (4275, [11539]), (4276, [11540]),
  (4277, [11541]), (4278, [11542]), (4279, [11543]), (4280, [11544]), (4281, [11545]), (4282, [11546]),
  (4283, [11547]), (4284, [11548]), (4285, [11549]), (4286, [11550]) ]

def lowerChunk5 : List (Nat × List Nat) := [
  (4287, [11551]), (4288, [11552]), (4289, [11553]), (4290, [11554]), (4291, [11555]), (4292, [11556]),
  (4293, [11557]), (4295, [11559]), (4301, [11565]), (5024, [43888]), (5025, [43889]), (5026, [43890]),
  (5027, [43891]), (5028, [43892]), (5029, [43893]), (5030, [43894]), (5031, [43895]), (5032, [43896]),
  (5033, [43897]), (5034, [43898]), (5035, [43899]), (5036, [43900]), (5037, [43901]), (5038, [43902]),
  (5039, [43903]), (5040, [43904]), (5041, [43905]), (5042, [43906]), (5043, [43907]), (5044, [43908]),
  (5045, [43909]), (5046, [43910]), (5047, [43911]), (5048, [43912]), (5049, [43913]), (5050, [43914]),
  (5051, [43915]), (5052, [43916]), (5053, [43917]), (5054, [43918]), (5055, [43919]), (5056, [43920]),
  (5057, [43921]), (5058, [43922]), (5059, [43923]), (5060, [43924]), (5061, [43925]), (5062, [43926]),
  (5063, [43927]), (5064, [43928]), (5065, [43929]), (5066, [43930]), (5067, [43931]), (5068, [43932]),
  (5069, [43933]), (5070, [43934]), (5071, [43935]), (5072, [43936]), (5073, [43937]), (5074, [43938]),
  (5075, [43939]), (5076, [43940]), (5077, [43941]), (5078, [43942]), (5079, [43943]), (5080, [43944]),
  (5081, [43945]), (5082, [43946]), (5083, [43947]), (5084, [43948]), (5085, [43949]), (5086, [43950]),
  (5087, [43951]), (5088, [43952]), (5089, [43953]), (5090, [43954]), (5091, [43955]), (5092, [43956]),
  (5093, [43957]), (5094, [43958]), (5095, [43959]), (5096, [43960]), (5097, [43961]), (5098, [43962]),
  (5099, [43963]), (5100, [43964]), (5101, [43965]), (5102, [43966]), (5103, [43967]), (5104, [5112]),
  (5105, [5113]), (5106, [5114]), (5107, [5115]), (5108, [5116]), (5109, [5117]), (7312, [4304]),
  (7313, [4305]), (7314, [4306]), (7315, [4307]), (7316, [4308]) ]

def lowerChunk6 : List (Nat × List Nat) := [
  (7317, [4309]), (7318, [4310]), (7319, [4311]), (7320, [4312]), (7321, [4313]), (7322, [4314]),
  (7323, [4315]), (7324, [4316]), (7325, [4317]), (7326, [4318]), (7327, [4319]), (7328, [4320]),
  (7329, [4321]), (7330, [4322]), (7331, [4323]), (7332, [4324]), (7333, [4325]), (7334, [4326]),
  (7335, [4327]), (7336, [4328]), (7337, [4329]), (7338, [4330]), (7339, [4331]), (7340, [4332]),
  (7341, [4333]), (7342, [4334]), (7343, [4335]), (7344, [4336]), (7345, [4337]), (7346, [4338]),
  (7347, [4339]), (7348, [4340]), (7349, [4341]), (7350, [4342]), (7351, [4343]), (7352, [4344]),
  (7353, [4345]), (7354, [4346]), (7357, [4349]), (7358, [4350]), (7359, [4351]), (7680, [7681]),
  (7682, [7683]), (7684, [7685]), (7686, [7687]), (7688, [7689]), (7690, [7691]), (7692, [7693]),
  (7694, [7695]), (7696, [7697]), (7698, [7699]), (7700, [7701]), (7702, [7703]), (7704, [7705]),
  (7706, [7707]), (7708, [7709]), (7710, [7711]), (7712, [7713]), (7714, [7715]), (7716, [7717]),
  (7718, [7719]), (7720, [7721]), (7722, [7723]), (7724, [7725]), (7726, [7727]), (7728, [7729]),
  (7730, [7731]), (7732, [7733]), (7734, [7735]), (7736, [7737]), (7738, [7739]), (7740, [7741]),
  (7742, [7743]), (7744, [7745]), (7746, [7747]), (7748, [7749]), (7750, [7751]), (7752, [7753]),
  (7754, [7755]), (7756, [7757]), (7758, [7759]), (7760, [7761]), (7762, [7763]), (7764, [7765]),
  (7766, [7767]), (7768, [7769]), (7770, [7771]), (7772, [7773]), (7774, [7775]), (7776, [7777]),
  (7778, [7779]), (7780, [7781]), (7782, [7783]), (7784, [7785]), (7786, [7787]), (7788, [7789]),
  (7790, [7791]), (7792, [7793]), (7794, [7795]), (7796, [7797]) ]

def lowerChunk7 : List (Nat × List Nat) := [
  (7798, [7799]), (7800, [7801]), (7802, [7803]), (7804, [7805]), (7806, [7807]), (7808, [7809]),
  (7810, [7811]), (7812, [7813]), (7814, [7815]), (7816, [7817]), (7818, [7819]), (7820, [7821]),
  (7822, [7823]), (7824, [7825]), (7826, [7827]), (7828, [7829]), (7838, [223]), (7840, [7841]),
  (7842, [7843]), (7844, [7845]), (7846, [7847]), (7848, [7849]), (7850, [7851]), (7852, [7853]),
  (7854, [7855]), (7856, [7857]), (7858, [7859]), (7860, [7861]), (7862, [7863]), (7864, [7865]),
  (7866, [7867]), (7868, [7869]), (7870, [7871]), (7872, [7873]), (7874, [7875]), (7876, [7877]),
  (7878, [7879]), (7880, [7881]), (7882, [7883]), (7884, [7885]), (7886, [7887]), (7888, [7889]),
  (7890, [7891]), (7892, [7893]), (7894, [7895]), (7896, [7897]), (7898, [7899]), (7900, [7901]),
  (7902, [7903]), (7904, [7905]), (7906, [7907]), (7908, [7909]), (7910, [7911]), (7912, [7913]),
  (7914, [7915]), (7916, [7917]), (7918, [7919]), (7920, [7921]), (7922, [7923]), (7924, [7925]),
  (7926, [7927]), (7928, [7929]), (7930, [7931]), (7932, [7933]), (7934, [7935]), (7944, [7936]),
  (7945, [7937]), (7946, [7938]), (7947, [7939]), (7948, [7940]), (7949, [7941]), (7950, [7942]),
  (7951, [7943]), (7960, [7952]), (7961, [7953]), (7962, [7954]), (7963, [7955]), (7964, [7956]),
  (7965, [7957]), (7976, [7968]), (7977, [7969]), (7978, [7970]), (7979, [7971]), (7980, [7972]),
  (7981, [7973]), (7982, [7974]), (7983, [7975]), (7992, [7984]), (7993, [7985]), (7994, [7986]),
  (7995, [7987]), (7996, [7988]), (7997, [7989]), (7998, [7990]), (7999, [7991]), (8008, [8000]),
  (8009, [8001]), (8010, [8002]), (8011, [8003]), (8012, [8004]) ]

def lowerChunk8 : List (Nat × List Nat) := [
  (8013, [8005]), (8025, [8017]), (8027, [8019]), (8029, [8021]), (8031, [8023]), (8040, [8032]),
  (8041, [8033]), (8042, [8034]), (8043, [8035]), (8044, [8036]), (8045, [8037]), (8046, [8038]),
  (8047, [8039]), (8072, [8064]), (8073, [8065]), (8074, [8066]), (8075, [8067]), (8076, [8068]),
  (8077, [8069]), (8078, [8070]), (8079, [8071]), (8088, [8080]), (8089, [8081]), (8090, [8082]),
  (8091, [8083]), (8092, [8084]), (8093, [8085]), (8094, [8086]), (8095, [8087]), (8104, [8096]),
  (8105, [8097]), (8106, [8098]), (8107, [8099]), (8108, [8100]), (8109, [8101]), (8110, [8102]),
  (8111, [8103]), (8120, [8112]), (8121, [8113]), (8122, [8048]), (8123, [8049]), (8124, [8115]),
  (8136, [8050]), (8137, [8051]), (8138, [8052]), (8139, [8053]), (8140, [8131]), (8152, [8144]),
  (8153, [8145]), (8154, [8054]), (8155, [8055]), (8168, [8160]), (8169, [8161]), (8170, [8058]),
  (8171, [8059]), (8172, [8165]), (8184, [8056]), (8185, [8057]), (8186, [8060]), (8187, [8061]),
  (8188, [8179]), (8486, [969]), (8490, [107]), (8491, [229]), (8498, [8526]), (8544, [8560]),
  (8545, [8561]), (8546, [8562]), (8547, [8563]), (8548, [8564]), (8549, [8565]), (8550, [8566]),
  (8551, [8567]), (8552, [8568]), (8553, [8569]), (8554, [8570]), (8555, [8571]), (8556, [8572]),
  (8557, [8573]), (8558, [8574]), (8559, [8575]), (8579, [8580]), (9398, [9424]), (9399, [9425]),
  (9400, [9426]), (9401, [9427]), (9402, [9428]), (9403, [9429]), (9404, [9430]), (9405, [9431]),
  (9406, [9432]), (9407, [9433]), (9408, [9434]), (9409, [9435]), (9410, [9436]), (9411, [9437]),
  (9412, [9438]), (9413, [9439]), (9414, [9440]), (9415, [9441]) ]

def lowerChunk9 : List (Nat × List Nat) := [
  (9416, [9442]), (9417, [9443]), (9418, [9444]), (9419, [9445]), (9420, [9446]), (9421, [9447]),
  (9422, [9448]), (9423, [9449]), (11264, [11312]), (11265, [11313]), (11266, [11314]), (11267, [11315]),
  (11268, [11316]), (11269, [11317]), (11270, [11318]), (11271, [11319]), (11272, [11320]), (11273, [11321]),
  (11274, [11322]), (11275, [11323]), (11276, [11324]), (11277, [11325]), (11278, [11326]), (11279, [11327]),
  (11280, [11328]), (11281, [11329]), (11282, [11330]), (11283, [11331]), (11284, [11332]), (11285, [11333]),
  (11286, [11334]), (11287, [11335]), (11288, [11336]), (11289, [11337]), (11290, [11338]), (11291, [11339]),
  (11292, [11340]), (11293, [11341]), (11294, [11342]), (11295, [11343]), (11296, [11344]), (11297, [11345]),
  (11298, [11346]), (11299, [11347]), (11300, [11348]), (11301, [11349]), (11302, [11350]), (11303, [11351]),
  (11304, [11352]), (11305, [11353]), (11306, [11354]), (11307, [11355]), (11308, [11356]), (11309, [11357]),
  (11310, [11358]), (11311, [11359]), (11360, [11361]), (11362, [619]), (11363, [7549]), (11364, [637]),
  (11367, [11368]), (11369, [11370]), (11371, [11372]), (11373, [593]), (11374, [625]), (11375, [592]),
  (11376, [594]), (11378, [11379]), (11381, [11382]), (11390, [575]), (11391, [576]), (11392, [11393]),
  (11394, [11395]), (11396, [11397]), (11398, [11399]), (11400, [11401]), (11402, [11403]), (11404, [11405]),
  (11406, [11407]), (11408, [11409]), (11410, [11411]), (11412, [11413]), (11414, [11415]), (11416, [11417]),
  (11418, [11419]), (11420, [11421]), (11422, [11423]), (11424, [11425]), (11426, [11427]), (11428, [11429]),
  (11430, [11431]), (11432, [11433]), (11434, [11435]), (11436, [11437]), (11438, [11439]), (11440, [11441]),
  (11442, [11443]), (11444, [11445]), (11446, [11447]), (11448, [11449]) ]

def lowerChunk10 : List (Nat × List Nat) := [
  (11450, [11451]), (11452, [11453]), (11454, [11455]), (11456, [11457]), (11458, [11459]), (11460, [11461]),
  (11462, [11463]), (11464, [11465]), (11466, [11467]), (11468, [11469]), (11470, [11471]), (11472, [11473]),
  (11474, [11475]), (11476, [11477]), (11478, [11479]), (11480, [11481]), (11482, [11483]), (11484, [11485]),
  (11486, [11487]), (11488, [11489]), (11490, [11491]), (11499, [11500]), (11501, [11502]), (11506, [11507]),
  (42560, [42561]), (42562, [42563]), (42564, [42565]), (42566, [42567]), (42568, [42569]), (42570, [42571]),
  (42572, [42573]), (42574, [42575]), (42576, [42577]), (42578, [42579]), (42580, [42581]), (42582, [42583]),
  (42584, [42585]), (42586, [42587]), (42588, [42589]), (42590, [42591]), (42592, [42593]), (42594, [42595]),
  (42596, [42597]), (42598, [42599]), (42600, [42601]), (42602, [42603]), (42604, [42605]), (42624, [42625]),
  (42626, [42627]), (42628, [42629]), (42630, [42631]), (42632, [42633]), (42634, [42635]), (42636, [42637]),
  (42638, [42639]), (42640, [42641]), (42642, [42643]), (42644, [42645]), (42646, [42647]), (42648, [42649]),
  (42650, [42651]), (42786, [42787]), (42788, [42789]), (42790, [42791]), (42792, [42793]), (42794, [42795]),
  (42796, [42797]), (42798, [42799]), (42802, [42803]), (42804, [42805]), (42806, [42807]), (42808, [42809]),
  (42810, [42811]), (42812, [42813]), (42814, [42815]), (42816, [42817]), (42818, [42819]), (42820, [42821]),
  (42822, [42823]), (42824, [42825]), (42826, [42827]), (42828, [42829]), (42830, [42831]), (42832, [42833]),
  (42834, [42835]), (42836, [42837]), (42838, [42839]), (42840, [42841]), (42842, [42843]), (42844, [42845]),
  (42846, [42847]), (42848, [42849]), (42850, [42851]), (42852, [42853]), (42854, [42855]), (42856, [42857]),
  (42858, [42859]), (42860, [42861]), (42862, [42863]), (42873, [42874]) ]

def lowerChunk11 : List (Nat × List Nat) := [
  (42875, [42876]), (42877, [7545]), (42878, [42879]), (42880, [42881]), (42882, [42883]), (42884, [42885]),
  (42886, [42887]), (42891, [42892]), (42893, [613]), (42896, [42897]), (42898, [42899]), (42902, [42903]),
  (42904, [42905]), (42906, [42907]), (42908, [42909]), (42910, [42911]), (42912, [42913]), (42914, [42915]),
  (42916, [42917]), (42918, [42919]), (42920, [42921]), (42922, [614]), (42923, [604]), (42924, [609]),
  (42925, [620]), (42926, [618]), (42928, [670]), (42929, [647]), (42930, [669]), (42931, [43859]),
  (42932, [42933]), (42934, [42935]), (42936, [42937]), (42938, [42939]), (42940, [42941]), (42942, [42943]),
  (42944, [42945]), (42946, [42947]), (42948, [42900]), (42949, [642]), (42950, [7566]), (42951, [42952]),
  (42953, [42954]), (42960, [42961]), (42966, [42967]), (42968, [42969]), (42997, [42998]), (65313, [65345]),
  (65314, [65346]), (65315, [65347]), (65316, [65348]), (65317, [65349]), (65318, [65350]), (65319, [65351]),
  (65320, [65352]), (65321, [65353]), (65322, [65354]), (65323, [65355]), (65324, [65356]), (65325, [65357]),
  (65326, [65358]), (65327, [65359]), (65328, [65360]), (65329, [65361]), (65330, [65362]), (65331, [65363]),
  (65332, [65364]), (65333, [65365]), (65334, [65366]), (65335, [65367]), (65336, [65368]), (65337, [65369]),
  (65338, [65370]), (66560, [66600]), (66561, [66601]), (66562, [66602]), (66563, [66603]), (66564, [66604]),
  (66565, [66605]), (66566, [66606]), (66567, [66607]), (66568, [66608]), (66569, [66609]), (66570, [66610]),
  (66571, [66611]), (66572, [66612]), (66573, [66613]), (66574, [66614]), (66575, [66615]), (66576, [66616]),
  (66577, [66617]), (66578, [66618]), (66579, [66619]), (66580, [66620]), (66581, [66621]), (66582, [66622]),
  (66583, [66623]), (66584, [66624]), (66585, [66625]), (66586, [66626]) ]

def lowerChunk12 : List (Nat × List Nat) := [
  (66587, [66627]), (66588, [66628]), (66589, [66629]), (66590, [66630]), (66591, [66631]), (66592, [66632]),
  (66593, [66633]), (66594, [66634]), (66595, [66635]), (66596, [66636]), (66597, [66637]), (66598, [66638]),
  (66599, [66639]), (66736, [66776]), (66737, [66777]), (66738, [66778]), (66739, [66779]), (66740, [66780]),
  (66741, [66781]), (66742, [66782]), (66743, [66783]), (66744, [66784]), (66745, [66785]), (66746, [66786]),
  (66747, [66787]), (66748, [66788]), (66749, [66789]), (66750, [66790]), (66751, [66791]), (66752, [66792]),
  (66753, [66793]), (66754, [66794]), (66755, [66795]), (66756, [66796]), (66757, [66797]), (66758, [66798]),
  (66759, [66799]), (66760, [66800]), (66761, [66801]), (66762, [66802]), (66763, [66803]), (66764, [66804]),
  (66765, [66805]), (66766, [66806]), (66767, [66807]), (66768, [66808]), (66769, [66809]), (66770, [66810]),
  (66771, [66811]), (66928, [66967]), (66929, [66968]), (66930, [66969]), (66931, [66970]), (66932, [66971]),
  (66933, [66972]), (66934, [66973]), (66935, [66974]), (66936, [66975]), (66937, [66976]), (66938, [66977]),
  (66940, [66979]), (66941, [66980]), (66942, [66981]), (66943, [66982]), (66944, [66983]), (66945, [66984]),
  (66946, [66985]), (66947, [66986]), (66948, [66987]), (66949, [66988]), (66950, [66989]), (66951, [66990]),
  (66952, [66991]), (66953, [66992]), (66954, [66993]), (66956, [66995]), (66957, [66996]), (66958, [66997]),
  (66959, [66998]), (66960, [66999]), (66961, [67000]), (66962, [67001]), (66964, [67003]), (66965, [67004]),
  (68736, [68800]), (68737, [68801]), (68738, [68802]), (68739, [68803]), (68740, [68804]), (68741, [68805]),
  (68742, [68806]), (68743, [68807]), (68744, [68808]), (68745, [68809]), (68746, [68810]), (68747, [68811]),
  (68748, [68812]), (68749, [68813]), (68750, [68814]), (68751, [68815]) ]

def lowerChunk13 : List (Nat × List Nat) := [
  (68752, [68816]), (68753, [68817]), (68754, [68818]), (68755, [68819]), (68756, [68820]), (68757, [68821]),
  (68758, [68822]), (68759, [68823]), (68760, [68824]), (68761, [68825]), (68762, [68826]), (68763, [68827]),
  (68764, [68828]), (68765, [68829]), (68766, [68830]), (68767, [68831]), (68768, [68832]), (68769, [68833]),
  (68770, [68834]), (68771, [68835]), (68772, [68836]), (68773, [68837]), (68774, [68838]), (68775, [68839]),
  (68776, [68840]), (68777, [68841]), (68778, [68842]), (68779, [68843]), (68780, [68844]), (68781, [68845]),
  (68782, [68846]), (68783, [68847]), (68784, [68848]), (68785, [68849]), (68786, [68850]), (71840, [71872]),
  (71841, [71873]), (71842, [71874]), (71843, [71875]), (71844, [71876]), (71845, [71877]), (71846, [71878]),
  (71847, [71879]), (71848, [71880]), (71849, [71881]), (71850, [71882]), (71851, [71883]), (71852, [71884]),
  (71853, [71885]), (71854, [71886]), (71855, [71887]), (71856, [71888]), (71857, [71889]), (71858, [71890]),
  (71859, [71891]), (71860, [71892]), (71861, [71893]), (71862, [71894]), (71863, [71895]), (71864, [71896]),
  (71865, [71897]), (71866, [71898]), (71867, [71899]), (71868, [71900]), (71869, [71901]), (71870, [71902]),
  (71871, [71903]), (93760, [93792]), (93761, [93793]), (93762, [93794]), (93763, [93795]), (93764, [93796]),
  (93765, [93797]), (93766, [93798]), (93767, [93799]), (93768, [93800]), (93769, [93801]), (93770, [93802]),
  (93771, [93803]), (93772, [93804]), (93773, [93805]), (93774, [93806]), (93775, [93807]), (93776, [93808]),
  (93777, [93809]), (93778, [93810]), (93779, [93811]), (93780, [93812]), (93781, [93813]), (93782, [93814]),
  (93783, [93815]), (93784, [93816]), (93785, [93817]), (93786, [93818]), (93787, [93819]), (93788, [93820]),
  (93789, [93821]), (93790, [93822]), (93791, [93823]), (125184, [125218]) ]

def lowerChunk14 : List (Nat × List Nat) := [
  (125185, [125219]), (125186, [125220]), (125187, [125221]), (125188, [125222]), (125189, [125223]), (125190, [125224]),
  (125191, [125225]), (125192, [125226]), (125193, [125227]), (125194, [125228]), (125195, [125229]), (125196, [125230]),
  (125197, [125231]), (125198, [125232]), (125199, [125233]), (125200, [125234]), (125201, [125235]), (125202, [125236]),
  (125203, [125237]), (125204, [125238]), (125205, [125239]), (125206, [125240]), (125207, [125241]), (125208, [125242]),
  (125209, [125243]), (125210, [125244]), (125211, [125245]), (125212, [125246]), (125213, [125247]), (125214, [125248]),
  (125215, [125249]), (125216, [125250]), (125217, [125251]) ]

/-- The whole lowercase mapping table, in ascending key order. -/
def lowerTable : List (Nat × List Nat) :=
  lowerChunk0 ++ lowerChunk1 ++ lowerChunk2 ++ lowerChunk3 ++ lowerChunk4 ++ lowerChunk5 ++ lowerChunk6 ++ lowerChunk7 ++ lowerChunk8 ++ lowerChunk9 ++ lowerChunk10 ++ lowerChunk11 ++ lowerChunk12 ++ lowerChunk13 ++ lowerChunk14

/-- The key set of `lowerTable` as a bitmask (bit `c` set exactly when `c`
is a mapped codepoint), kept as a numeral so membership tests reduce fast;
`keyMask_eq` proves it equal to the fold of the table's keys. -/
def keyMask : Nat :=
  236590363965468751221258863111289859521938493226522377853435409257710695682801378290530090092144971161695326673640230886377450160909285423930577915984816629139284963137427297164489767372140064164863257588399026330095347923798095523507235858188418350427059348150401535796620831977552926478577065509317032833774145799747191946328038092234610005074377510004896256120879813623578119310228265775569311035133952579551111573308018827875469869346678299919198459567754807445130249032705661793370909254661306122132463677508108023287248768121803072700658926080261804402755208807249025803317760576444020086427195314479115507669762954477586128383586949795364998517742240436202791060238274267768303386242894082574583660899575648807270668185351694077345066234785943804290747672428772795690156192188205300195304434629054137309011326753875996333922163959224287758422283413800403132481448904288438934254431060302150988279396001692298921180720732777085250110429562132509258586914873229536094536761998809771169749073112819487104906915974996334601996078823040237452465660985357303338924586124463618448634520178503199129662930964263155796966383675583087520209582384759102020778654195001635300697211155328138588038795120511110522185020087511558325221725789398583306099046433061676817722391415877251890866807473759966646898466039142410306478836118338667167264419398676788212890395017258767429657668492828636657807757480139667723759007348159697238077880977698167617707512404189814446958007181894792163185798524900873662422618461661891329511327793819546193028306236274280631969436517546394912851016797786813309886722169501018381678138151379773983321405958511107506884702154057510680510408137335339876883264270530363020877576563634810703523890026885850576349191861091848451063175744585169470583672469101609814134059898059328057752392895605854923014645707767777719538353475390481607491278974133424889012128008236632359814212403370325097438891924672684563736472021451127648978482813940839619428342512953818575842661677617804957063258335852724283816256486507410054494409340555920378905632436719959539905194181703820128991635879247429418542690130885009754913356771461631594326813438687622132318561114960839312319176445139452985446371312586103736968197031342448562423623072440921659703909763917214609330504721195740082587573475922205305310538091210187645543667713100557254405545893830302928580886607596258393341150138614258034275039118054819114928691754275287649248779225533448352764746915619892586412622772405076393618193200155658228190837807991867529291170756651735058480420368055401439776503388317912074151074756916060049887298612311160867121791337310003549999207474487911434574228746125779532852390310516515556804040182442181022697930550521834559499412510308622853229153577310422095364114681379539602319599561806207142054589412637217606305949719463748779904609572754903734023892212205031616595137729698095921384732959171991107556174467870229715403186297491552746157020676899209965963897212642265140838554714691912002533851473053983382397008392309552005731453276031486231536773561611069415165721285914098061658899708162671944818875297492331208430426965043197578452155548204292134636188647545066492795777769963500463082424845349695972496059129989346926283436751400434311399847632918765206011034063636776066701899695538007255165053957303714579768956131685484751595840429863547657077805572959574472078186481533929214024773988317592323631050827360622504628823995056124316637936351879755427510532701050501750407501437390299122992849572391865293100465360787928971426230312616316782867329996371302515242279263326834017723442995153590757175827812802174139139374423834349360656304304529322027451378879723959275487193426414282836214161389590503020958649796496198049047156024581659776024440470046834199569611049418159809943415935925411986662455204431238566488712663119486546010035124179297527941460774173343057566642341632435794516972952969392706646295791900093256986245954230197969663218904978066826104748758710061926625541020300025085827149640806196860716132720030658600753126588762912282509260099552358372503312600694623460939749218526510531267351938621403438806244168752318819111094537557342295399408885251339284151272252684631849480173520037687209090771796955048502884078365169365065617569189490772080388885656325136800975868218175364012288627220239940830119863845393311760074125933240871508681311175219600572597072849113757387174890316192567847332399095251194444691109570919041111860612900716416411187551248320979830866774008502577798235291511084254292644580509339766751941719041456934239250622259165763273698526386215759237729337235939038430708756250712842399980545134056973351833169319110389322060191132470680161915034685048690403983152880327000008764135236282527807844819367169471920398845889827231621191823779460536386075828608547326896413829740724065371468175611804645363745714158341200986403653287943793656236192117266639225586334954226477739964837482395043662085595434891190618184878939850966276599217951795174933030315210015543898227733241453072965701623257893845255246191151195458308239712099006361259556084550063694056104371601991623029683079732531588664507692449623614211353407234478221803344078044632619181480211664961807256810645822036644738208124036672406061273948622043447635031157763829642500225790716816296328611360830927319869786766707419792800584392158825728540025306353328184161517748005742288877542917550359250049891565392419399365753495592994366028415667362614451600663532527717312531678679436676756843047778256192003414278577241772048005689221011549491430277541485352391816460285820642223628275936398629357291699916321852032137183688990919526485057331599260087375370212266170961352296721362083935345429519769989325792434950390182398631872132756218154588075094881790608063570925288885685259288851819634364172951680273024379982059660322461305709687444299551972673594822158586104896599029853144703961336922509372846576679535881684297154940422489968971199718833339724502715600946880528156373630146155481096463541968821802772086034779706069474702970554551518427941752375474468480017768268573117926980781809532089236698303056122658390584914593499554502848563470054369370227812292248033829669747363266352713953738377518835272733478881000602115624725597836678060023476184170793502783858804956337678476873088047765886630291827646406103230602924014679646977163761991631907608890710663120887990752750709980510156408742834917948023395626582092573580764491485774532125746280054211972161655475978892868397813949346740698868862257791508038029659940871743372990184907785443527951805700159013381195900318222962244420794840591606302769562246561061255242347036632580695140062530882736839435771188058407695102193364736640276854534843583832041323287546140583478895706554133400712845625405771020947326435622370906099437240140064137306650663543737399575663114015048406113740611192624936903571795757389452257574883690662338085716176424664186016795175651706099972921659785143032106142429545444711809533216777441969711759195651415159263150115112288388038837574704729611751083310648837455421890854541321899146138662909237623645333489734261027198934500309789850921664589022564329021018167396345440523469244168170461256396490478923718017784887791023859171434518747193171925514859636022417014274022517531221616564480744122629058221456634889925043561861204770906429848801174573991100190865529259372546918249455993936424586237219600878904629937263301660662645431808929089548998634425813660339586191910470832646084470559236249811623380413784189478925879633532967008583248000611143748119084342704595927861067867287374849286739005261469663003908561350096577243042569655316505283817703069819096067464079106419542239174335313609027751973281224231834720910748837238260185133663676550176849459760220668494892518552129451898209983785954206344085086412247743028326979962115931165520142647546526401337535684195135353011631767944795423667486230653468555704304396043847528743984492315581305706697602761074724194907683344891700905694282674375022884055381197279140719076601302978158917068383134813526416377681624112819492922164403110439922413805056288030684373206028518528165322044798130141620596547725827322886315606941005507414891584878769452102821484463351375126750508067038886343563020212777431484708758756087734245806801757999076031394431959418286292502985834452729021600487015595199497603334974927243621490090504633889140336772845550498475521509855764951783180707571504106932589199999384474329995897851700665300528918429203374568588303280281716269100347127993787463245261388917899687132306089881491133160605353742854053264255336619222510064466131804867204758659792777251093558392116636876299209713729227029845190248577019989297002514867670255848941134203067331385655691032929787767745697220272639047977856402526733994503684600215987327452248576894522338302869328825014646023498190528686166927185094310969542590329573692880684144104218096262195145937802328732617194999246676082720672778150569828905179714938309041608698934258557455778934748552953159245927409049899709884224180526258183201518100741439252794533420252708954439219074619829614252382477126274323695034309389587989985490138182825245914394257619278867287372846867059748242752021504980184813886382002235505919757339932042716940800405940741009919113506828478088058705880567490515000832171742473618946545101117573028553581692872690190109921757195770102587398481957903959306552960478619428804983196804093544456269553115647208627431767624296806421869943408092492240221824328653055775658766003516477704980980377770905607951457191886561438901537798400941696606300457362713356519293734471561511767573693336221661922081290545547355849708589522390256404390135167112921469639389733371843248284396032010626657175980535078737323642978989795537468941870778777101450733399059207008366779863318850902384533103899205120264296175648978892160583092197253237741794922611086768442818357430416373079333480716647768713834953261989933074790512437984818256428021920202253363458199425895978225607587859050102227839289865967064879673929291535773607954137294465656521649926174480422307562465460235588668149329206986745261916906963834620217416669623938939579851255726662717972932490766466225363729390287003454184261662444106713311672517656143363990754222717507423773138147002197172282431312287472505833206208828849534454479755129220154200547349018033997116830207146729864015283107345738155015770347241668465303486652010721578381898178181806001231368309355668128247525039869963782251546851126628525677256065427763189401408125867451778266224368757195683146099553895440333568825324219684092777748368487661535857599624117196848583553724506495376709843989349735783609396016386832671984080945982203993352968938574895529740197190770583625169007467228055252028930912477583920127020470974178770391554518404770282345548771375840381320135187979388857288260696303568233136264055936089643050655279490251506224970086021859085140601066802642558752802466796315733767899013845951655676511002858628209013593229430905732570017114205303303880403966274558214213842495443258588995002798229489096050356194408876441425281246323074135277399514672242408589159245932561340196695977671415196609920429493363315692712143816835405634622252191567462527047819964103960486830556896832903205142210356799427540174806125104394052904948248727532291028005111334277167435792670333195818146113424181993332092234580155181515447198402707496871883077144530459200710541337801386545722829679868125248646741057101858407835733662890091498060806709206221941373024624861642525865819126299218323635242088040336411505323858302844694690635379371417857634601328515498446036088711798350731295579596756830405047265790727474715097728487710125598420183222333422679186363734190996099022589159692739153833611933438521642975069224856965654554979721911217040883461737329365779475452087944042932600055722943233830897608463827924483153081062940813274456254332744567557909087952623102681245340722588063715290576054378144436790057332311783156703577698764653756288327493160579849703626303889417523866735379592000924635632217028202524353409400600432724771167896037123214141226024793434389252979228897364648747254148562450244209649770023571854768821157279279272642286091629594036062621401770380158608115456327346989060350492813926570944084535805547039035499134133215195058476997667553838343620566037282213493764502157026735321078176160055091396604291521155952782152012159858147180861331233544745302639752317500961608691427965612914540936649008808982641129377799890096304389428462987586114701394332822774403135277021276971850320083744388627128916119609588395610969183503918453661644715419187356792830522310625785795634765564746048013095049278637246428697562867336140091876223136068338473905816823958015235247295354321771101513226668340542161541831243188757925575325383994367406829463764249776981848821195119832384809047279621017564866768205876528184544095353429525633582340116347346159308456270704188929387225742761246949609463928036825151902763761264613054520766729780791564346735777605088870332005408518257978454864061950012069801756820096436922334829992638901982966160721352364559047081961513804954442763979503127072709629379937106101051283601434818095301487830594751163812719511002966109870059968823331404838005162680446288840035413740637862859837114392572332719012451189062362999597486708586202940183214031575184621031314672875215430243051500891108542186158310807109307685035209675677224672811800017754461324491698621009608491998420367238710185474364056823691800918975693283773516318708206224026240975542811677533598384762731071260322316820233128201876628630152980267792407684832776811856224942816024148429918542850677242803080836069098802548651717722694848159075674695063853557849338687840868302526424405992255614213690343285728297362433315211735153064642297546937695491227622311152572019700629541779985239662560251277111913276935256487285363945756738222401118306592311479084284290804462205534505413492276080831725069178654825307021240637535042421260105284651381886268575551487846905945500874390173820833671196766016933259610600788197925037462225940717687890825575643282288027890882676313088310953571421537929209527422518472276415485837607863777600262230852152036851774072055903434659095599362181780432802156598188523765070291222262186369466002122861887890457560983149302410421857286810087506304125207400746915200188381148727054498537051055954669858709215079638462552286119564229719366027012233021979380429098657098769569406991218800973857808815787816055232573332343258433958035544146875944238720269540415935542506622334603531147266954157010269934337701489562994738457611616299587757527234012459180292626640835074136325170147109651443966000282063659224496595747629125122190934729323325878798874320376032043395803995260994886203882054495912081912944647132015081562298884649285478666667694346510372452437792268378015201008688398549497309208111673789659884297212118036826534398590622785329379228904690390753187822193897567800691791809539617691281018174741667935918508353798057207790611116612570183626925850238370291998582162701326437580373359515251556750959410893090317569218315406234497136778933541044711921544073080308548301287791797563300229086044240744915298298531495134231404542111428608873910439628337034922587528251953489766786984082390456063333245903656594730035315291130776873761797567534826242319529662127530134365895146546862301936043089530329824145203063699467259783981338052168044828704329152766010486599888533563750223815985514796011265601701009918309775163868094331229177600070380475250582696944584613160177680760473894945565733642986732919246099315167728394288360106367067705546209362441667606636111699133575949766786237559451283136579462262336712105616837204472107232414737402783595297651899904651138103728588827902857302375331376044962512426697119112900206436347985677119816777180767076803312117999342005595144925119199353565374653857069623516596111717898550179532542074211449790565636949247824554242029056765777117295394566393178983301880683324010474664517160148494695724287467258211817741463319098380804370962546294893880427759525952953390549217152472242046167113312674381461659733745177939293346503842658144061062531205277421016755806181904289949084917688762238705611513650635083432302367533246822458837734431864410845348760592485212598053705904525316195379323086981649809360541311895995253380843016353762910424074584741537326048990886180420522455103506974662752026983391918371943376187457622594673426969315373626157538156498633207682588243149885653614802563337403509092457425880703132623059376395496195247430714328559498988161014968570034525896514480485245022236636204265003109949418573364040389673150913581897217422047618945504510369612076015470080718197004248291407743728723876580596633156667465338888900937155172643195969890399013030319892332889245178094441538179249505105720709431076107833696055894802522920293091514791433006775594558958455187250140389701428424630559293643650747556909227127757295042470016556168335015973626077987700825807886350960186426377954424632404180530684893110280610917280028697272873398341507397704245345917445354828875175812777390737746490991840500090995947757684572069149828390583111892750759891584746980571801530346534565568778616209550467670299825280595741415488683475997269115638249285379562576472783459756022885711889929895801603674450889557156928157195832290046290665332167479780664964677837123781118394290043081059966182666437269628343897970252584313723706320823369731310794224689016012334610593186070556643941382264585275127894035980906867188949421564695158722232102049682260711203042350088904976878905474541849194265240384768857664370453253965118454124584184586325750812611100973499179957621792240624794962766349275736644346614516691002044525638594580237292028878904472309110391383428666481943477921086312373692796287361605770031225897557473470721339025915078061724773196753304464955028935907126393258537371612493943592114329261215389609884221155013375220723255806153698038330208130527938695079127837903588862319220843181196572123370388520774123119378895425040331775014369759656789943204140796813900532197334629678681122053945021639608354977728215104515105415386695925370242739953531724187717277714339863023917773866447762222670468730671792183177967346981036416893902308123688770628442900256729777833232786059160399366396066865626584887674640510030788763127775879504781647863075218337962388687210282932743693224222890993391784469784229486519205581958758614081944758827331655090567850615792890959570386633393598861413931661482860026066149502140015817226520553978498329930941872546766651927076531639106214816743914686762300424412327803606059152178729661861196576927503759747794752337278279912883653046328052724167008084771908685230137319378371551689784257253367649879445447369173924815956938243673898820162295286164119361933791308760485972372585213600144521736449179681954146130709662816088099915310940239358211830003948966475258896371510531745540801311877881101324212609408724421686794512631949908650110786398869174920716318014659946762929583591532375709317820299302449927878114142206386741084079783922915060053111890493070304888325911328800045867879168354120414141359419580101696328895875286704542870372244393325513760144729608525287294714332383868725389504131181323123440999201127149582733596760812641730945326520515766446444376307983759672896693289824716869536493468763703746147536149054505959195108573298612077712557308839548186780183004999530671935892075345998904737872676213090412048571687490181255891157537560796490360208132242341058037486482880931323050640297971988805095304781336016842284118897065565878449242666868974441047563288545241411641780618061916495389591733641019322599803546403394339155323133490146106123661378601267992788148064045250847472783352039617125592693229395690495678258302383289367903598299542881842900234183679336375767088051376176980736886415122388409246244214405792894337229569555895359270427290103859339378613281985211956973458804195641646898752213354548600778069385380824752085895953586448419990736385946459578882645184769192863216717899070884442593380668577928543057230796988142248114183758124722930928249652615574299791943864829871344330572602535245657208366432731879559402931843123680836584495522479287591372936598170554939635972059186962954172370747388866909099198025394854929145757964950696889823961212077399065972161481738646686352760402645843383946045986982009156729065266395066797898284602860151890138409862339995072633120626550720635068637545087803494074417592704207234589044455946073802659462046789832051047996744271816428813652284302452381520515887562691451600165594961703172543601178843565276822027052583009610085000669357481489892747578719731749201501759229333205806860434036153750908968561738705907355205144985646131837811422368610648314986069283735217065059622043422503005859429808253758774798363249885770847888047403095852555069541438624761180639216061843765917068417225023493513913839425967237673702602791535955407846699096975310006769546409176434283967995117241563013284712202388563851557699675930268255167960450298239260789864923696138330012507043489173975892768664442397399232104755977299575825787311566011654799924888816608529358276912045231696399302635726404251568391332407546771811474805885275696009751816793303780943066873963070528195804935420516816218733085503485398009391444135631703870955318273571610693910960718823820147916015367028483982678996630031574266170898537351844668300188440559940137073333770562041793744005514886089603223252689883817376100811066017201919845738944090089096889111324690297353049532760875220933521130593797571017798525642458711714689171227673371630070607655223184152333462161160240344536132523131096642290802036742804808781884682918211878029324813083834896235851461439233530709705631826626573980545058589011451304942194857929326995770061291293527263574428323469826360851129957246412807087816924715431706924404817377255850461615445136536089846744711751755748178834286947538352106506915918342544944745929982242557082737044848609973753925711004900014374306091151915782462612595709100827254696313957824695728355729496664353137755719669309292575082902009879832974895602296968460655085218158193090142623485973820338224301693818060053660116212067344754924248573538489126242607739406963978105587888885848611082874440317873601210414621832775862207194854745974858403794995190564296358218356185630359643855561329674402606252886492037010778835328387983759002466693709803160745230080312276950587056968354263377710177650893696259389660016648501248088020422713229868212301776804607200035367015260898365328000183994220660345764726964683707548669316742219451623096653177990628987692824744285234008325103747984259838471844085315181415884525541259385224545219285502179946793448813651285828225264655246503408607892281377804135506265515653102552681528007774274558220800466572636425453804433136256975346055647517040080038368778551790693586282305398196801206454292170581179446722623384104900449338011385798120216201717972590863682895689749468474769674344623060458693951068540388191730891611176897010407704710661724427487559430817886306851056906546608054275561943267566689549063082094756464604453028902723667400349855076610095675708734860583425317550553835815818077537878566410028898848756625462274005428077607106956606803567277830729143221401277880342024926061483555687360243333773070453542795274275329548830883612827794601898813040296837027197370645758750627700028600195561371943084664880829144315281970455059465896774668353902171931171242573669915396593965855289098179632777067418695092914592920379747685032207397925198025888320396399652820410442723765411467073432696736294385592793479221613531188435109823602943674280031474086792989050268935507528581814095729538103128206809186804645037097013628315318904533577398359690255323834922846113435593835661808674961391240128063338632832508098565743252143097243250066209504186657716941226792289158945285157734115927555074842186264024920460883503774172683377161995894032761379573854869576883933537409441494222904593719441251859156415208103286833466524801417486057660682740361445023090827799357858526191561032019543698012987108081256688700703408014452163060497945293318708420201291792206839597236599776988409910963090666542021694546094501751329750535287598740615688771741109222697317665246035906346089222370525016213620234618907160991509723094778497393456234829969852500063863575785686298188156323918017426551229608219082876754421240406524941431915581979773420438647636984385737439622084208065721455627996009258867578314047986908682872194433202454986323430517717532635378542522252301639194022423491312031918591857875544066894713679566829812759463139610394367567697596184044838099704656994429347336774947646370014408935561744649685624547251104016705290035651930316794478424741642886675908584358414098900130116659882602726654785329122801765020317281485872141387375610897380459939902507017252800780073619800658784357687558148991577025897150459120593503831914250705873774520812860091112708645200861244362442597366825079124248761811625481147462315903930490027564382690806648834044532936265255468290297652414936141388521130467644905230768925567299251293699752261264894998360726767885721632245857496754410920741005178995951195720305680905455753956628582294089503024300616348886930178330413932493163127143807232599986950856331103662899954499212596946497524835903815258774667884687070597475817839274850507884976796328987954959419822104979262953684109225431321806715208509408550325333124739178544241468060220686085438480824323204135428552440666037209787086200277179767757261969669517494959937363040541273858215252392664204546132254507175442122165485178392121455272746678660560334192551754294086635891527246812244164854365375813278848744370055171605416282806897948869840588291966156695030081287618900590427131096491981481284792653626735997709321006837764630903203535319299135183360376249458024969173155465600044090591245293416446544968040914650414168593530872555861466637549008560856670063800036214272673960258437259134779897004534041618825695184238214816851141980974300541534422899159062368013590689840179558269523394580613925620437963163619151123241305975145455808208644250649447289699661083861683716224973951471161822578833840780005272112789891591191480112642963589713111001788677248977632938108678541518238879809312246221117414690453291850061423264545319502958698849568473033502655368521483708504812569412316216007752746886730346662288240153534166214184888358412662702382894619464023438992527365476334746287091974260714154614320122420684710531991534490772267982538877381940793885770878498857273699241133097127226320015161126518682486581901344160653166951980887214610428792631185171769185237759728407998459219006474003505338151632204934460680875839672901353223179028220461828445613660203069440411019348934375021208874578158939367692845509676823755162929026473837760411893121388285726936207428388994609727795751108194500154450647135690515280255465595955488023648317384489052450002298627278152815006419275683155345979082618011585331297998046515554504159152306251361348802246123693665702778215788374261846122506848526690555691952251036791849091612214687020326769354006565420352526033507623578521820372408732427756355168838830237046630256868148186440265058797212768482599803960078440912672303385769014279212473444586712755960150896916409877109654103654485946390957470185227992968763357158346978081306296705364883594550595882268069166415021558917298899814235555925749311682043458441233513092150190192164274839484736215083454506604184090179999581707973593510753133686617317128332314760083308132840382034995431023388628231273020108317558255282088734583790761208003262649362522806421277642254046048664867007231470840380431407371163928365572292909158964530545024117120112112132750482377938298699081704209612673571795668116905953666343559452872697266382698544718281786351055318332266330753412582484300497847360740778968444680405647514715643676879426765258319108109558306056711435544189990290309215036864514412865791295118391621453601694531741527833497055998843188222610325430149486378150322984964443823993192536318995372181580934597079773258696274015057635908786166012202142384208024141994524768091352781616674576368472724106526519737694883612421032409086178770205801384262042247846983791899683591112210096912115427458209283318476574490315382237829947757433080644442001905789076346642559096198132167833885922865436568320003897594290783535297425458247744727140136883150704648296552559730006870756156284718139476247014518577841604303992045825731158167108562251926441263257161799478895983216661924938749686087919861531122792122751852603495857808149059637305868570512822201507401216949890056746959036033381982131235790888603184598608962803218962972729626513170657049556068817954322761590023170306066129656640514914490070189826719840047362632461469454360525621748155440926840081774821657347434022263297286165912629636308708456935028414966014635892391840891982960498840043317365662788004228040954148066074235705866273829203069830843516743358372873859991873172556220459570734245177784729582776596434403498980561911800514121050270749854453629184091770290866508536923504826122897608378199920127645460841971383461387990195956685351503864038929426003725370166759185153422456558413491608188205330324233397700450904350594682323771036693444981897157912649509472784313329051933698435142163472204840006175608359416889061412396487658881365485430227212075102026045889074694057119173810007985634217473141622789678093449840453554751473699288360260728783947390262236457107943742572626819207438459922385521990855729149099514577394392978582524923908098730838319384767107545946492252088052685378778733109005421258326659908381000895651825879466283194123125651203434340440676762271055286808066125701289990633125009170371089570914414248706614736568222282344597585457194545372676175420716266250227572141706651375294121766317060500554677782009717562225641780712436884375640765869534209235170494978395905975200959125816629593401118182269950437143048490787230717817951643144181416155619566693432755887830087556975557046167545050253339324143078217773505993139906654541667106519187838422850799326417791334478311751076461625778048240342450787753444947138260361123610264969602266345798667629865929899691894756819475867231448693509915673938053420178681240098275857221373349837653605944324008876302963431810588327324684190102925514572736964646940871870859554142110001113428168168384383931595565587905519645872565688599253374852808933912749000359671981685950272068717806984518567786724776867831650795452921516185879864316225500115117722483944184525641425856174169375262408888194769491511800313641154611808743984923493739757607476712647829907988437589698031594716001668890297292792679689485463572459094329997133585446188360865525462815754542959899959488135497925337687838228106653671142234558367004500352140930331121872968936065292104635045949048391574802876096294391448511790167247714042949931621766382503900710451395924924685183006944501986020376726345755592233069372752045791452385637246632457347428560878882252951488800758276502273400963407487249062423409855060156558494515285849197162463591613061913882604533526825160609458708747036531777622711656374530188890844620502630454095319416921934636198734192166964989951533531461680551183863982245047092148083781407750067496181031349462566078450105804380049065242039646593178608989244432286545213083443901935982598771431036617566804073132124290088209835521823475765332628903850872740069994441617954349054212152451285240360492399965444601859690929507738643038825031432594484779580486507567322040988599253676563584318076428622613252888367451138528117062271519261456421681874703851968153404498562045302647321616668107711434732064014823733598242460408764788498989523474776421421065574493380093396586596872059713301077290809041750144104230851051648941768268837802855100039241112593703296185111250557120434390490715389062439446886048936610805534230240603318448601215705094430564117025326171565860523440036592683395212872573466001463449762556499563541929622966244552363576018671390108101085236040013503324519274082836492705461749647239769784091891691982543380882495539297990755423043376004982716853725882764098485044752699032629654118372502628346847699449359503914568282045469345423984648225679654340328240064329197501359716537012733776881188791959070720240124237099346628349334100122131736819101068440989854755271553361353328499802551566613800226321467914292073209181726635230875870346191266807921192767528486577100179611534270910788957336189481713582692759917143965426771024033764942056550142367891317934377610166676552417246022869677907900472650842363645660882375540720767364095956940309266752709919094902279301599297398968138885862974255836022035521561212940418448538802800998686428371075114673588572551542510265904063738320253081453365172851403031460694834753623679922219394867069787078077764425281978852046228812057802917761335586420400387890956508347501472644902717167657019843590102285196989422615043481541837883475114586765057372964107013865754301545989151607844867714031860370768372314114295472955240790663105565738808255921794113238659618569110446706180125662235557547101771372098625422777923145544558272023088254292617019825049263555640171063992172966847565931828679717298569332002306469581601530459148492998537630013500972700571427370263977336721368100532825914663769593750127296894230486886199159684874277119259295400723002766600883396721430007419770032617340280459446509094067251054985891212573591587218433701278637666863670304681091821952915004081529957708489556997219155091136237266166318648775222533846873732628682658936805258268251080155546100188581443824772148628587497174723280616894650350531800680106217376346444222154016732386506302159311150405445599454261813784049012840334701632752111985962446747557559242279505984322357937287539578881137629021311784564987441341689548098468073436198838563820275686041697909370880062350791129225327569587842956726483216119771462507064668143822834896114332948792036162299487264151070191853194750291442291326051358199680289934433468840627684107223439992414081467402528390516735016389766747447970892256684896233442668764960169196595415314718145476256518097280209066014876563600189688202546050534309824430943456493633572532668399627807650180303262641252012113563410936632528869288124209132185779577380844274189402829088505937521991491719664184467504864999814416064788807994296395044185937704295568503814147237219135680252904168008436465126510293395849430604197429714852546955067864737581804649072277477238227638693896670194202910732033181098016205910742645395779733855711374031194073925710077733113616670912651094662502020632500985936991561442323688449054115596879276412131383514433205614963545763287763166520520871373805409892055620333476477672529736823228063646902445899376380783292504178109645593617731835393723159891910055745402002257122694458128564610443256268721446093434415691314806529777219871457749951686505442847242947946602554657383938894553587305526405299339604557382551031154876281306434833765036070384303786221259797981615399408953296690186723825128946140136862928496821456485692267998343819405407131704744512835593744109078275406975123901548407061420812579854555582979158379612736329263242070913088343979266443428548330248511247619417839009889700079702680547099106448794515904523445581216683732568110990700221534237002196376162737218522380549171887172421947653742547958922558717750387551620777825471210975017254636524268808959365342753246216857335427085211130665120208643527816446282695732161916174811865979275570362809552314807964709646319811552299900575554885595705000948991847695338297394359651710002263661354950813712873392059677621312550696754774506816859978332295850852320505124113722705270812212360322378185219276130288055440287558004553862328696398256996958477689600214219503794412157780476966314840902610142876038595398915312976463636744058621150973736396197644743415606154747790192247993721506075974142688377633516664023807540366744949400708514889408201745452039249749396053393565846293925188508187621768183774485545557304968823637096222228425804821042214145784413877381814327698862951398357674734688926548767200668327583115067801520296124740960979127306826143190044725491425602266419996779270807621066448299664080529928923006754671211340009759412016605542780710090033330426029185526732726389276257921919396304466547110581936388370790408499546491965783676736026422143021506842948791838388886831529939661409260172404681932167055780901689203198446971406116154606409510404576895547703236981484360460887752232471570821221541535657515575376292633297496090389136138611452597264499997875314221781606742059712326302765592544675068406653339659204679060433392656358553755842408464261645998720114843183946701953609955451815185763375712740141259017181837770663128249693321448911204460539477605389342274239076186308040634827814652469736911613599692145074733304507375127377132885624690945192174450760612300694086373184955656260923681408591901006230544625228826347245932307233343817104660048568355733072010979984709236988601527573817496341588952143217450127267532947850710321433560113674072883578750791929810067307315900015253251726909295440139862295371569861192670471729217747280012387428337142813747977795092091918926044332121638262114162125114195013447316668437633900371730300296808036464021968994171646013006065247813909352121927203540815487353208391635850431137478761040367299999586457117137863537101739736148210398841854916815749910974082274710191846485864017934347439030188842738165346343881961542165482071369410875342005185296104803242189210028010081169984870471805466796842996981293217577272803045138340529301434745290096391331909438540997186779694776058904576

/-- Modelled from the Unicode character database: the `Cased` codepoints,
as closed ranges (used only by the `Final_Sigma` condition). -/
def casedRanges : List (Nat × Nat) := [
  (65, 90), (97, 122), (170, 170), (181, 181), (186, 186), (192, 214), (216, 246), (248, 442),
  (444, 447), (452, 659), (661, 687), (880, 883), (886, 887), (891, 893), (895, 895), (902, 902),
  (904, 906), (908, 908), (910, 929), (931, 1013), (1015, 1153), (1162, 1327), (1329, 1366), (1376, 1416),
  (4256, 4293), (4295, 4295), (4301, 4301), (4304, 4346), (4349, 4351), (5024, 5109), (5112, 5117), (7296, 7304),
  (7312, 7354), (7357, 7359), (7424, 7467), (7531, 7543), (7545, 7578), (7680, 7957), (7960, 7965), (7968, 8005),
  (8008, 8013), (8016, 8023), (8025, 8025), (8027, 8027), (8029, 8029), (8031, 8061), (8064, 8116), (8118, 8124),
  (8126, 8126), (8130, 8132), (8134, 8140), (8144, 8147), (8150, 8155), (8160, 8172), (8178, 8180), (8182, 8188),
  (8450, 8450), (8455, 8455), (8458, 8467), (8469, 8469), (8473, 8477), (8484, 8484), (8486, 8486), (8488, 8488),
  (8490, 8493), (8495, 8500), (8505, 8505), (8508, 8511), (8517, 8521), (8526, 8526), (8544, 8575), (8579, 8580),
  (9398, 9449), (11264, 11387), (11390, 11492), (11499, 11502), (11506, 11507), (11520, 11557), (11559, 11559), (11565, 11565),
  (42560, 42605), (42624, 42651), (42786, 42863), (42865, 42887), (42891, 42894), (42896, 42954), (42960, 42961), (42963, 42963),
  (42965, 42969), (42997, 42998), (43002, 43002), (43824, 43866), (43872, 43880), (43888, 43967), (64256, 64262), (64275, 64279),
  (65313, 65338), (65345, 65370), (66560, 66639), (66736, 66771), (66776, 66811), (66928, 66938), (66940, 66954), (66956, 66962),
  (66964, 66965), (66967, 66977), (66979, 66993), (66995, 67001), (67003, 67004), (68736, 68786), (68800, 68850), (71840, 71903),
  (93760, 93823), (119808, 119892), (119894, 119964), (119966, 119967), (119970, 119970), (119973, 119974), (119977, 119980), (119982, 119993),
  (119995, 119995), (119997, 120003), (120005, 120069), (120071, 120074), (120077, 120084), (120086, 120092), (120094, 120121), (120123, 120126),
  (120128, 120132), (120134, 120134), (120138, 120144), (120146, 120485), (120488, 120512), (120514, 120538), (120540, 120570), (120572, 120596),
  (120598, 120628), (120630, 120654), (120656, 120686), (120688, 120712), (120714, 120744), (120746, 120770), (120772, 120779), (122624, 122633),
  (122635, 122654), (125184, 125251), (127280, 127305), (127312, 127337), (127344, 127369) ]

/-- Modelled from the Unicode character database: the `Case_Ignorable`
codepoints, as closed ranges (used only by the `Final_Sigma` condition). -/
def caseIgnorableRanges : List (Nat × Nat) := [
  (39, 39), (46, 46), (58, 58), (94, 94), (96, 96), (168, 168), (173, 173), (175, 175),
  (180, 180), (183, 184), (688, 879), (884, 885), (890, 890), (900, 901), (903, 903), (1155, 1161),
  (1369, 1369), (1375, 1375), (1425, 1469), (1471, 1471), (1473, 1474), (1476, 1477), (1479, 1479), (1524, 1524),
  (1536, 1541), (1552, 1562), (1564, 1564), (1600, 1600), (1611, 1631), (1648, 1648), (1750, 1757), (1759, 1768),
  (1770, 1773), (1807, 1807), (1809, 1809), (1840, 1866), (1958, 1968), (2027, 2037), (2042, 2042), (2045, 2045),
  (2070, 2093), (2137, 2139), (2184, 2184), (2192, 2193), (2200, 2207), (2249, 2306), (2362, 2362), (2364, 2364),
  (2369, 2376), (2381, 2381), (2385, 2391), (2402, 2403), (2417, 2417), (2433, 2433), (2492, 2492), (2497, 2500),
  (2509, 2509), (2530, 2531), (2558, 2558), (2561, 2562), (2620, 2620), (2625, 2626), (2631, 2632), (2635, 2637),
  (2641, 2641), (2672, 2673), (2677, 2677), (2689, 2690), (2748, 2748), (2753, 2757), (2759, 2760), (2765, 2765),
  (2786, 2787), (2810, 2815), (2817, 2817), (2876, 2876), (2879, 2879), (2881, 2884), (2893, 2893), (2901, 2902),
  (2914, 2915), (2946, 2946), (3008, 3008), (3021, 3021), (3072, 3072), (3076, 3076), (3132, 3132), (3134, 3136),
  (3142, 3144), (3146, 3149), (3157, 3158), (3170, 3171), (3201, 3201), (3260, 3260), (3263, 3263), (3270, 3270),
  (3276, 3277), (3298, 3299), (3328, 3329), (3387, 3388), (3393, 3396), (3405, 3405), (3426, 3427), (3457, 3457),
  (3530, 3530), (3538, 3540), (3542, 3542), (3633, 3633), (3636, 3642), (3654, 3662), (3761, 3761), (3764, 3772),
  (3782, 3782), (3784, 3789), (3864, 3865), (3893, 3893), (3895, 3895), (3897, 3897), (3953, 3966), (3968, 3972),
  (3974, 3975), (3981, 3991), (3993, 4028), (4038, 4038), (4141, 4144), (4146, 4151), (4153, 4154), (4157, 4158),
  (4184, 4185), (4190, 4192), (4209, 4212), (4226, 4226), (4229, 4230), (4237, 4237), (4253, 4253), (4348, 4348),
  (4957, 4959), (5906, 5908), (5938, 5939), (5970, 5971), (6002, 6003), (6068, 6069), (6071, 6077), (6086, 6086),
  (6089, 6099), (6103, 6103), (6109, 6109), (6155, 6159), (6211, 6211), (6277, 6278), (6313, 6313), (6432, 6434),
  (6439, 6440), (6450, 6450), (6457, 6459), (6679, 6680), (6683, 6683), (6742, 6742), (6744, 6750), (6752, 6752),
  (6754, 6754), (6757, 6764), (6771, 6780), (6783, 6783), (6823, 6823), (6832, 6862), (6912, 6915), (6964, 6964),
  (6966, 6970), (6972, 6972), (6978, 6978), (7019, 7027), (7040, 7041), (7074, 7077), (7080, 7081), (7083, 7085),
  (7142, 7142), (7144, 7145), (7149, 7149), (7151, 7153), (7212, 7219), (7222, 7223), (7288, 7293), (7376, 7378),
  (7380, 7392), (7394, 7400), (7405, 7405), (7412, 7412), (7416, 7417), (7468, 7530), (7544, 7544), (7579, 7679),
  (8125, 8125), (8127, 8129), (8141, 8143), (8157, 8159), (8173, 8175), (8189, 8190), (8203, 8207), (8216, 8217),
  (8228, 8228), (8231, 8231), (8234, 8238), (8288, 8292), (8294, 8303), (8305, 8305), (8319, 8319), (8336, 8348),
  (8400, 8432), (11388, 11389), (11503, 11505), (11631, 11631), (11647, 11647), (11744, 11775), (11823, 11823), (12293, 12293),
  (12330, 12333), (12337, 12341), (12347, 12347), (12441, 12446), (12540, 12542), (40981, 40981), (42232, 42237), (42508, 42508),
  (42607, 42610), (42612, 42621), (42623, 42623), (42652, 42655), (42736, 42737), (42752, 42785), (42864, 42864), (42888, 42890),
  (42994, 42996), (43000, 43001), (43010, 43010), (43014, 43014), (43019, 43019), (43045, 43046), (43052, 43052), (43204, 43205),
  (43232, 43249), (43263, 43263), (43302, 43309), (43335, 43345), (43392, 43394), (43443, 43443), (43446, 43449), (43452, 43453),
  (43471, 43471), (43493, 43494), (43561, 43566), (43569, 43570), (43573, 43574), (43587, 43587), (43596, 43596), (43632, 43632),
  (43644, 43644), (43696, 43696), (43698, 43700), (43703, 43704), (43710, 43711), (43713, 43713), (43741, 43741), (43756, 43757),
  (43763, 43764), (43766, 43766), (43867, 43871), (43881, 43883), (44005, 44005), (44008, 44008), (44013, 44013), (64286, 64286),
  (64434, 64450), (65024, 65039), (65043, 65043), (65056, 65071), (65106, 65106), (65109, 65109), (65279, 65279), (65287, 65287),
  (65294, 65294), (65306, 65306), (65342, 65342), (65344, 65344), (65392, 65392), (65438, 65439), (65507, 65507), (65529, 65531),
  (66045, 66045), (66272, 66272), (66422, 66426), (67456, 67461), (67463, 67504), (67506, 67514), (68097, 68099), (68101, 68102),
  (68108, 68111), (68152, 68154), (68159, 68159), (68325, 68326), (68900, 68903), (69291, 69292), (69446, 69456), (69506, 69509),
  (69633, 69633), (69688, 69702), (69744, 69744), (69747, 69748), (69759, 69761), (69811, 69814), (69817, 69818), (69821, 69821),
  (69826, 69826), (69837, 69837), (69888, 69890), (69927, 69931), (69933, 69940), (70003, 70003), (70016, 70017), (70070, 70078),
  (70089, 70092), (70095, 70095), (70191, 70193), (70196, 70196), (70198, 70199), (70206, 70206), (70367, 70367), (70371, 70378),
  (70400, 70401), (70459, 70460), (70464, 70464), (70502, 70508), (70512, 70516), (70712, 70719), (70722, 70724), (70726, 70726),
  (70750, 70750), (70835, 70840), (70842, 70842), (70847, 70848), (70850, 70851), (71090, 71093), (71100, 71101), (71103, 71104),
  (71132, 71133), (71219, 71226), (71229, 71229), (71231, 71232), (71339, 71339), (71341, 71341), (71344, 71349), (71351, 71351),
  (71453, 71455), (71458, 71461), (71463, 71467), (71727, 71735), (71737, 71738), (71995, 71996), (71998, 71998), (72003, 72003),
  (72148, 72151), (72154, 72155), (72160, 72160), (72193, 72202), (72243, 72248), (72251, 72254), (72263, 72263), (72273, 72278),
  (72281, 72283), (72330, 72342), (72344, 72345), (72752, 72758), (72760, 72765), (72767, 72767), (72850, 72871), (72874, 72880),
  (72882, 72883), (72885, 72886), (73009, 73014), (73018, 73018), (73020, 73021), (73023, 73029), (73031, 73031), (73104, 73105),
  (73109, 73109), (73111, 73111), (73459, 73460), (78896, 78904), (92912, 92916), (92976, 92982), (92992, 92995), (94031, 94031),
  (94095, 94111), (94176, 94177), (94179, 94180), (110576, 110579), (110581, 110587), (110589, 110590), (113821, 113822), (113824, 113827),
  (118528, 118573), (118576, 118598), (119143, 119145), (119155, 119170), (119173, 119179), (119210, 119213), (119362, 119364), (121344, 121398),
  (121403, 121452), (121461, 121461), (121476, 121476), (121499, 121503), (121505, 121519), (122880, 122886), (122888, 122904), (122907, 122913),
  (122915, 122916), (122918, 122922), (123184, 123197), (123566, 123566), (123628, 123631), (125136, 125142), (125252, 125259), (127995, 127999),
  (917505, 917505), (917536, 917631), (917760, 917999) ]

/-- Membership in the `Cased` ranges. -/
def isCased (n : Nat) : Bool := casedRanges.any (fun r => r.1 ≤ n && n ≤ r.2)

/-- Membership in the `Case_Ignorable` ranges. -/
def isCaseIgnorable (n : Nat) : Bool :=
  caseIgnorableRanges.any (fun r => r.1 ≤ n && n ≤ r.2)

/-- The `Final_Sigma` scan (Rust's `case_ignorable_then_cased`): skip
`Case_Ignorable` codepoints, then test whether the next one is `Cased`. -/
def caseIgnorableThenCased : List Nat → Bool
  | [] => false
  | c :: cs => if isCaseIgnorable c then caseIgnorableThenCased cs else isCased c

/-- `char::to_lowercase`: the unconditional lowering of one codepoint. -/
def lowerChar (c : Nat) : List Nat :=
  match lowerTable.lookup c with
  | some ds => ds
  | none => [c]

/-- `str::to_lowercase`, walking the text with the reversed prefix at hand:
every codepoint maps through `lowerChar`, except capital sigma (931), which
lowers to final sigma (962) exactly when preceded by case-ignorables then a
cased codepoint and not so followed (the `Final_Sigma` condition, as in
Rust's `map_uppercase_sigma`). -/
def to_lowercase_aux : List Nat → List Nat → List Nat
  | [], _ => []
  | c :: rest, before =>
    (if c = 931 then
      if caseIgnorableThenCased before && !caseIgnorableThenCased rest
      then [962] else [963]
     else lowerChar c) ++ to_lowercase_aux rest (c :: before)

/-- `str::to_lowercase` on a whole text. -/
def to_lowercase (s : List Nat) : List Nat := to_lowercase_aux s []

/-- A codepoint the lowercase pass leaves unchanged: unmapped and not the
capital sigma. -/
def goodChar (d : Nat) : Bool := !keyMask.testBit d && d != 931

/-- `char::is_whitespace` on a scalar value (the Unicode `White_Space` set). -/
def isWhitespaceCp (n : Nat) : Bool :=
  (9 ≤ n && n ≤ 13) || n = 32 || n = 133 || n = 160 || n = 5760 ||
  (8192 ≤ n && n ≤ 8202) || n = 8232 || n = 8233 || n = 8239 ||
  n = 8287 || n = 12288

/-- `str::split_whitespace`, accumulator form: `acc` holds the reversed
current word; maximal whitespace runs separate words and empty pieces are
dropped. -/
def split_whitespace_aux : List Nat → List Nat → List (List Nat)
  | [], acc => if acc.isEmpty then [] else [acc.reverse]
  | c :: cs, acc =>
    if isWhitespaceCp c then
      if acc.isEmpty then split_whitespace_aux cs []
      else acc.reverse :: split_whitespace_aux cs []
    else split_whitespace_aux cs (c :: acc)

/-- `str::split_whitespace` collected into a list of words. -/
def split_whitespace (s : List Nat) : List (List Nat) :=
  split_whitespace_aux s []

/-- `Vec::join("-")`: the words interleaved with the hyphen scalar `45`. -/
def joinHyphen : List (List Nat) → List Nat
  | [] => []
  | [w] => w
  | w :: ws => w ++ 45 :: joinHyphen ws

/-- Embedded from `main.rs` lines 150–156: `slugify(value)` lowercases,
splits on whitespace and joins the pieces with `"-"`. -/
def slugify (value : List Nat) : List Nat :=
  joinHyphen (split_whitespace (to_lowercase value))

/-! ### Template intermediate representation, evaluator and analyzer -/

/-- Modelled from the spec (§4.1): expression nodes of the demonstrated
subset — literals, variable references, static attribute access and binary
comparison. -/
inductive Expr where
  | lit (v : Value)
  | var (name : String)
  | getattr (obj : Expr) (attr : String)
  | lt (lhs rhs : Expr)

/-- Modelled from the spec (§4.1): the intermediate representation is an
ordered sequence of literal-text spans, expression emissions and local
assignments. -/
inductive Node where
  | text (s : String)
  | emit (e : Expr)
  | setStmt (name : String) (e : Expr)

/-- Modelled from the spec (§3 Scope/State): the name→value bindings active
during one evaluation; `set` prepends, lookup sees the most recent binding. -/
def Scope := List (String × Value)

/-- Modelled from the spec (§3): `lookup(name)` — read-only access to any
binding of the final state. -/
def Scope.lookup (st : Scope) (name : String) : Option Value :=
  List.lookup name st

/-- Modelled from the spec (§4.2): expression evaluation — an absent name
yields the "undefined" marker (not an error); attribute access that finds
nothing yields "undefined"; comparison is per the value's structural
ordering, failing with `TypeError` on mismatched variants. -/
def evalExpr (scope : Scope) : Expr → Except EKind Value
  | .lit v => .ok v
  | .var n =>
    match Scope.lookup scope n with
    | some v => .ok v
    | none => .ok .undef
  | .getattr e a => do
    let v ← evalExpr scope e
    match v with
    | .kwargsV es => .ok ((es.lookup a).getD .undef)
    | _ => .ok .undef
  | .lt lhs rhs => do
    let va ← evalExpr scope lhs
    let vb ← evalExpr scope rhs
    match va, vb with
    | .int x, .int y => .ok (.bool (decide (x < y)))
    | .float x, .float y => .ok (.bool (decide (x < y)))
    | .str x, .str y => .ok (.bool (decide (x < y)))
    | _, _ => .error .typeError

/-- Modelled from the spec (§3 truthiness): empty/zero/none are falsy. -/
def Value.is_true : Value → Bool
  | .vnone => false
  | .undef => false
  | .bool b => b
  | .int i => decide (i ≠ 0)
  | .float q => decide (q ≠ 0)
  | .str s => decide (s ≠ "")
  | .kwargsV es => !es.isEmpty

/-- Modelled from the spec (§4.2): how an emitted value is written into the
output text. -/
def Value.stringify : Value → String
  | .vnone => "none"
  | .undef => ""
  | .bool b => if b then "true" else "false"
  | .int i => toString i
  | .float q => toString q
  | .str s => s
  | .kwargsV _ => ""

/-- Modelled from the spec (§4.2): walk the nodes in order — literal text is
appended verbatim, emissions append the evaluated value's text, and `set`
binds into the current scope, visible to all subsequent nodes. -/
def renderAux : List Node → Scope → String → Except EKind (String × Scope)
  | [], scope, out => .ok (out, scope)
  | .text s :: ns, scope, out => renderAux ns scope (out ++ s)
  | .emit e :: ns, scope, out => do
    let v ← evalExpr scope e
    renderAux ns scope (out ++ v.stringify)
  | .setStmt x e :: ns, scope, out => do
    let v ← evalExpr scope e
    renderAux ns ((x, v) :: scope) out

/-- Modelled from the spec (§4.2, §6): `render_and_return_state` — the scope
is seeded from the caller's context and the rendered text is returned with
the final state. -/
def render (nodes : List Node) (ctx : Scope) : Except EKind (String × Scope) :=
  renderAux nodes ctx ""

/-- The static dotted path of a reference chain, with its root name:
`bar.baz` has root `"bar"` and path `"bar.baz"`; non-reference expressions
have none. -/
def dottedPath : Expr → Option (String × String)
  | .var n => some (n, n)
  | .getattr e a =>
    match dottedPath e with
    | some (r, p) => some (r, p ++ "." ++ a)
    | none => none
  | _ => none

/-- Set-semantics accumulation: record a name once, in first-seen order. -/
def insertNew (out : List String) (s : String) : List String :=
  if out.contains s then out else out ++ [s]

/-- Modelled from the spec (§4.5): the names (or, when `track` is set, full
static dotted paths) read by an expression whose root is not yet bound. -/
def collectExpr (track : Bool) (bound : List String) : Expr → List String
  | .lit _ => []
  | .var n => if bound.contains n then [] else [n]
  | .getattr e a =>
    match dottedPath (.getattr e a) with
    | some (r, p) => if bound.contains r then [] else [if track then p else r]
    | none => collectExpr track bound e
  | .lt lhs rhs => collectExpr track bound lhs ++ collectExpr track bound rhs

/-- Modelled from the spec (§4.5): single-pass program-order walk keeping the
set of names bound by `set` so far. -/
def analyzeAux (track : Bool) : List Node → List String → List String → List String
  | [], _, out => out
  | .text _ :: ns, bound, out => analyzeAux track ns bound out
  | .emit e :: ns, bound, out =>
    analyzeAux track ns bound ((collectExpr track bound e).foldl insertNew out)
  | .setStmt x e :: ns, bound, out =>
    analyzeAux track ns (x :: bound) ((collectExpr track bound e).foldl insertNew out)

/-- Modelled from the spec (§4.5, §6): `Template::undeclared_variables`. -/
def undeclared_variables (nodes : List Node) (track : Bool) : List String :=
  analyzeAux track nodes [] []

/-! ### The concrete templates and expressions of the examples -/

/-- The compiled form of `"{% set x = foo %}{{ x }}{{ bar.baz }}"`
(`main.rs` line 134). -/
def tmplUndeclared : List Node :=
  [ .setStmt "x" (.var "foo"),
    .emit (.var "x"),
    .emit (.getattr (.var "bar") "baz") ]

/-- The compiled form of `"{% set x = 42 %}Hello {{ what }}!"`
(`main.rs` line 109). -/
def tmplHello : List Node :=
  [ .setStmt "x" (.lit (.int 42)),
    .text "Hello ",
    .emit (.var "what"),
    .text "!" ]

/-- The compiled form of the expression `"number < 42"` (`main.rs` line 16),
as produced by `compile_expression`. -/
def exprNumberLt42 : Expr :=
  .lt (.var "number") (.lit (.int 42))

/-! ### Claims -/

/-- C2: `mathematical_fold`, declared with a variadic positional collector and
a keyword argument `op`, called with positionals `1,2,3,4`: the binding
delivers all four positionals in the collector, and the call returns the
integer `10` for `op="add"` and `24` for `op="mul"`. -/
theorem mathematical_fold_add_mul :
    (from_args_split [Value.int 1, Value.int 2, Value.int 3, Value.int 4,
        Value.kwargsV [("op", Value.str "add")]]).1 =
      [Value.int 1, Value.int 2, Value.int 3, Value.int 4] ∧
    mathematical_fold [Value.int 1, Value.int 2, Value.int 3, Value.int 4,
        Value.kwargsV [("op", Value.str "add")]] = Except.ok (Value.int 10) ∧
    mathematical_fold [Value.int 1, Value.int 2, Value.int 3, Value.int 4,
        Value.kwargsV [("op", Value.str "mul")]] = Except.ok (Value.int 24) :=
  ⟨rfl, rfl, rfl⟩

/-- C3: on `"{% set x = foo %}{{ x }}{{ bar.baz }}"` the analyzer returns
exactly the set `{"foo", "bar"}` without path tracking and exactly
`{"foo", "bar.baz"}` with path tracking, each entry once. -/
theorem undeclared_variables_example :
    (undeclared_variables tmplUndeclared false).toFinset = {"foo", "bar"} ∧
    (undeclared_variables tmplUndeclared false).Nodup ∧
    (undeclared_variables tmplUndeclared true).toFinset = {"foo", "bar.baz"} ∧
    (undeclared_variables tmplUndeclared true).Nodup := by
  refine ⟨by decide, by decide, by decide, by decide⟩

/-- C4: attribute lookup on a `Point` object returns exactly the registered
component for each of `"x"`, `"y"`, `"z"`, and nothing (absence, never an
error) for every other key. -/
theorem point_get_value_spec (p : Point) (key : Value)
    (h : ∀ s, key = Value.str s → s ≠ "x" ∧ s ≠ "y" ∧ s ≠ "z") :
    p.get_value (Value.str "x") = some (Value.float p.c0) ∧
    p.get_value (Value.str "y") = some (Value.float p.c1) ∧
    p.get_value (Value.str "z") = some (Value.float p.c2) ∧
    p.get_value key = none := by
  refine ⟨rfl, rfl, rfl, ?_⟩
  cases key <;> simp only [Point.get_value, Value.as_str]
  case str s =>
    have hs := h s rfl
    split <;> simp_all

/-- Witness for C4 at the concrete point `(1, 5/2, 3)` and the absent key
`"w"`. -/
theorem point_get_value_spec_witness :
    (Point.mk 1 (5/2) 3).get_value (Value.str "x") = some (Value.float 1) ∧
    (Point.mk 1 (5/2) 3).get_value (Value.str "y") = some (Value.float (5/2)) ∧
    (Point.mk 1 (5/2) 3).get_value (Value.str "z") = some (Value.float 3) ∧
    (Point.mk 1 (5/2) 3).get_value (Value.str "w") = none :=
  point_get_value_spec (Point.mk 1 (5/2) 3) (Value.str "w")
    (by intro s hs; injection hs with h; subst h; exact ⟨by decide, by decide, by decide⟩)

/-- C5: rendering `"{% set x = 42 %}Hello {{ what }}!"` with `what="World"`
produces `"Hello World!"`, and in the final state `lookup("x")` is the
integer `42`: the `set` binding is visible and captured. -/
theorem render_set_binding_visible :
    ∃ st : Scope,
      render tmplHello [("what", Value.str "World")] = Except.ok ("Hello World!", st) ∧
      st.lookup "x" = some (Value.int 42) :=
  ⟨[("x", Value.int 42), ("what", Value.str "World")], rfl, rfl⟩

/-- C6: rendering is deterministic — two renders of the same template with
the same context yield identical output and final-state snapshots. -/
theorem render_deterministic (nodes : List Node) (ctx : Scope)
    (o₁ o₂ : Except EKind (String × Scope))
    (h₁ : render nodes ctx = o₁) (h₂ : render nodes ctx = o₂) : o₁ = o₂ :=
  h₁.symm.trans h₂

/-- Witness for C6 on the `"{% set x = 42 %}Hello {{ what }}!"` template. -/
theorem render_deterministic_witness :
    (Except.ok ("Hello World!", [("x", Value.int 42), ("what", Value.str "World")]) :
        Except EKind (String × Scope)) =
      Except.ok ("Hello World!", [("x", Value.int 42), ("what", Value.str "World")]) :=
  render_deterministic tmplHello [("what", Value.str "World")] _ _ rfl rfl

/-- C7: the compiled expression `"number < 42"` evaluated against
`number=23` succeeds with a truthy value (`23 < 42` is `true` per the
structural ordering on integers). -/
theorem compile_expression_eval_truthy :
    evalExpr [("number", Value.int 23)] exprNumberLt42 = Except.ok (Value.bool true) ∧
    (Value.bool true).is_true = true :=
  ⟨rfl, rfl⟩

/-- C1: with the bag `{reverse: true, limit: 4}` the `modify` callable binds
both named parameters and succeeds (every incoming keyword argument is
consumed, so nothing is left for a variadic collector); and for any
well-typed bag holding a key that `modify` never reads, the call fails with
`UnusedKeywordArgument`. -/
theorem kwarg_binding_and_unused (vs : List Value) (es : List (String × Value))
    (hr : es.lookup "reverse" = none ∨ ∃ b, es.lookup "reverse" = some (Value.bool b))
    (hl : es.lookup "limit" = none ∨
      ∃ n : Int, es.lookup "limit" = some (Value.int n) ∧ 0 ≤ n)
    (hx : ∃ kv ∈ es, kv.1 ≠ "reverse" ∧ kv.1 ≠ "limit") :
    modify vs ⟨[("reverse", Value.bool true), ("limit", Value.int 4)], []⟩ =
      Except.ok (vs.reverse.take 4) ∧
    modify vs ⟨es, []⟩ = Except.error EKind.unusedKeywordArgument := by
  constructor
  · rfl
  · obtain ⟨kv, hkv, hk1, hk2⟩ := hx
    have hallE : Kwargs.assert_all_used ⟨es, ["limit", "reverse"]⟩ =
        Except.error EKind.unusedKeywordArgument := by
      unfold Kwargs.assert_all_used
      rw [if_neg]
      intro hall
      rw [List.all_eq_true] at hall
      have hc := hall kv hkv
      simp [List.contains, hk1, hk2] at hc
    rcases hr with hr | ⟨b, hr⟩ <;> rcases hl with hl | ⟨n, hl, hn⟩ <;> (try cases b) <;>
      simp [*, modify, Kwargs.getOptBool, Kwargs.getOptNat, Kwargs.getRaw,
        bind, Except.bind, pure, Except.pure]

/-- Witness for C1 on `[1, 2]` with the exact bag of the example and with a
bag carrying the never-read key `"extra"`. -/
theorem kwarg_binding_and_unused_witness :
    modify [Value.int 1, Value.int 2]
        ⟨[("reverse", Value.bool true), ("limit", Value.int 4)], []⟩ =
      Except.ok [Value.int 2, Value.int 1] ∧
    modify [Value.int 1, Value.int 2]
        ⟨[("reverse", Value.bool true), ("limit", Value.int 4),
          ("extra", Value.int 1)], []⟩ =
      Except.error EKind.unusedKeywordArgument :=
  kwarg_binding_and_unused [Value.int 1, Value.int 2]
    [("reverse", Value.bool true), ("limit", Value.int 4), ("extra", Value.int 1)]
    (Or.inr ⟨true, rfl⟩) (Or.inr ⟨4, rfl, by decide⟩)
    ⟨("extra", Value.int 1), by simp, by decide, by decide⟩

/-- C8: in `modify`, reversal happens before truncation — with
`reverse=true` and `limit=n` the result is the first `n` elements of the
reversed sequence. -/
theorem modify_reverse_before_truncate (vs : List Value) (n : Nat) :
    modify vs ⟨[("reverse", Value.bool true), ("limit", Value.int (n : Int))], []⟩ =
      Except.ok (vs.reverse.take n) := by
  simp [modify, Kwargs.getOptBool, Kwargs.getOptNat, Kwargs.getRaw,
    Kwargs.assert_all_used, List.lookup, bind, Except.bind, pure, Except.pure]

/-- C9 counterexample: with the keyword argument `op` bound to the integer
`7` (not a string), `mathematical_fold` does not succeed with `1`: the
`Option<&str>` read of `op` fails with `ArgumentTypeError`. -/
theorem mathematical_fold_nonstring_op_counterexample :
    mathematical_fold [Value.kwargsV [("op", Value.int 7)]] =
      Except.error EKind.argumentTypeError ∧
    mathematical_fold [Value.kwargsV [("op", Value.int 7)]] ≠ Except.ok (Value.int 1) := by
  refine ⟨rfl, fun h => ?_⟩
  have h2 : (Except.error EKind.argumentTypeError : Except EKind Value) =
      Except.ok (Value.int 1) := h
  exact Except.noConfusion h2

/-- C9 (amended): whenever `op` is absent or is a string equal to neither
`"add"` nor `"mul"`, `mathematical_fold` succeeds with the integer `1`,
ignoring all positional arguments. -/
theorem mathematical_fold_default_one (args : List Value) (es : List (String × Value))
    (h : es.lookup "op" = none ∨
      ∃ s, es.lookup "op" = some (Value.str s) ∧ s ≠ "add" ∧ s ≠ "mul") :
    mathematical_fold (args ++ [Value.kwargsV es]) = Except.ok (Value.int 1) := by
  have hsplit : from_args_split (args ++ [Value.kwargsV es]) = (args, ⟨es, []⟩) := by
    simp [from_args_split, List.getLast?_concat, List.dropLast_concat]
  rcases h with h | ⟨s, h, hadd, hmul⟩ <;>
    simp [*, mathematical_fold, Kwargs.getOptStr, Kwargs.getRaw,
      bind, Except.bind, pure, Except.pure]

/-- Witness for C9 (amended) with a non-numeric positional argument and
`op="noop"`. -/
theorem mathematical_fold_default_one_witness :
    mathematical_fold [Value.str "q", Value.kwargsV [("op", Value.str "noop")]] =
      Except.ok (Value.int 1) :=
  mathematical_fold_default_one [Value.str "q"] [("op", Value.str "noop")]
    (Or.inr ⟨"noop", rfl, by decide, by decide⟩)

set_option maxRecDepth 8192 in
/-- `keyMask` is exactly the fold of the table's keys into a bitmask. -/
theorem keyMask_eq :
    keyMask = (lowerTable.map Prod.fst).foldl (fun m k => m ||| (1 <<< k)) 0 := by decide

/-- Bit `k` of a fold of one-bit masks: set when already set or `k` is among
the folded keys. -/
theorem foldl_or_testBit :
    ∀ (keys : List Nat) (m k : Nat),
      (keys.foldl (fun acc j => acc ||| (1 <<< j)) m).testBit k =
        (m.testBit k || keys.contains k) := by
  intro keys
  induction keys with
  | nil => intro m k; simp
  | cons j t ih =>
    intro m k
    rw [List.foldl_cons, ih, Nat.testBit_or]
    have h1 : ((1 : Nat) <<< j).testBit k = (k == j) := by
      rw [Nat.shiftLeft_eq, Nat.one_mul, Nat.testBit_two_pow]
      rcases eq_or_ne j k with h | h
      · simp [h]
      · simp [h, Ne.symm h]
    rw [h1, List.contains_cons, Bool.or_assoc]

/-- An association-list lookup succeeds exactly on the key column. -/
theorem lookup_isSome_eq_contains :
    ∀ (l : List (Nat × List Nat)) (c : Nat),
      (l.lookup c).isSome = (l.map Prod.fst).contains c := by
  intro l
  induction l with
  | nil => intro c; rfl
  | cons e t ih =>
    intro c
    obtain ⟨k, v⟩ := e
    rw [List.map_cons, List.contains_cons]
    simp only [List.lookup]
    cases hck : c == k <;> simp [hck, ih]

/-- The bitmask decides lookup success in the lowercase table. -/
theorem keyMask_testBit (c : Nat) :
    keyMask.testBit c = (lowerTable.lookup c).isSome := by
  rw [keyMask_eq, foldl_or_testBit, Nat.zero_testBit, Bool.false_or,
    ← lookup_isSome_eq_contains]

/-- A successful association-list lookup exhibits its entry. -/
theorem lookup_mem :
    ∀ (l : List (Nat × List Nat)) (c : Nat) (ds : List Nat),
      l.lookup c = some ds → (c, ds) ∈ l := by
  intro l
  induction l with
  | nil => intro c ds h; simp [List.lookup] at h
  | cons e t ih =>
    intro c ds h
    obtain ⟨k, v⟩ := e
    simp only [List.lookup] at h
    cases hck : c == k
    · rw [hck] at h
      exact List.mem_cons_of_mem _ (ih c ds h)
    · rw [hck] at h
      have hkc : c = k := eq_of_beq hck
      cases h
      subst hkc
      exact List.mem_cons_self _ _

set_option maxRecDepth 8192 in
/-- Every codepoint the lowercase table produces is itself unmapped and not
the capital sigma. -/
theorem closureOK : lowerTable.all (fun e => e.2.all goodChar) = true := by decide

/-- A codepoint good for the lowercase pass is unmapped and not sigma. -/
theorem goodChar_lookup {c : Nat} (h : goodChar c = true) :
    lowerTable.lookup c = none ∧ ¬ c = 931 := by
  unfold goodChar at h
  rw [Bool.and_eq_true] at h
  obtain ⟨h1, h2⟩ := h
  rw [Bool.not_eq_true'] at h1
  rw [keyMask_testBit] at h1
  refine ⟨Option.not_isSome_iff_eq_none.mp (by simp [h1]), ?_⟩
  intro hc
  subst hc
  simp at h2

/-- Conversely, an unmapped non-sigma codepoint is good. -/
theorem goodChar_of_lookup_none {c : Nat} (h1 : lowerTable.lookup c = none)
    (h2 : ¬ c = 931) : goodChar c = true := by
  unfold goodChar
  rw [Bool.and_eq_true]
  constructor
  · rw [Bool.not_eq_true', keyMask_testBit, h1]
    rfl
  · simpa using h2

/-- Every codepoint emitted by the lowercase pass is good: it came from the
table (closed under goodness), is one of the two lowercase sigmas, or passed
through unchanged. -/
theorem good_to_lowercase :
    ∀ (l before : List Nat), ∀ d ∈ to_lowercase_aux l before, goodChar d = true := by
  intro l
  induction l with
  | nil => intro before d hd; simp [to_lowercase_aux] at hd
  | cons c rest ih =>
    intro before d hd
    simp only [to_lowercase_aux] at hd
    rcases List.mem_append.mp hd with h | h
    · split at h
      · split at h
        · simp at h; subst h; decide
        · simp at h; subst h; decide
      · rename_i hc
        unfold lowerChar at h
        cases hlk : lowerTable.lookup c with
        | some ds =>
          rw [hlk] at h
          simp only at h
          have hmem := lookup_mem _ _ _ hlk
          have hrow := List.all_eq_true.mp closureOK _ hmem
          exact List.all_eq_true.mp hrow d h
        | none =>
          rw [hlk] at h
          simp only [List.mem_singleton] at h
          subst h
          exact goodChar_of_lookup_none hlk hc
    · exact ih (c :: before) d h

/-- The lowercase pass is the identity on texts of good codepoints. -/
theorem to_lowercase_fixed :
    ∀ (l before : List Nat), (∀ c ∈ l, goodChar c = true) →
      to_lowercase_aux l before = l := by
  intro l
  induction l with
  | nil => intro before _; rfl
  | cons c rest ih =>
    intro before h
    obtain ⟨hlk, hc⟩ := goodChar_lookup (h c (List.mem_cons_self c rest))
    simp only [to_lowercase_aux]
    rw [if_neg hc]
    unfold lowerChar
    rw [hlk]
    simp only [List.singleton_append, List.cons.injEq, true_and]
    exact ih (c :: before) (fun d hd => h d (List.mem_cons_of_mem c hd))

/-- Words produced by the splitter contain no whitespace, given the running
accumulator contains none. -/
theorem mem_split_aux_noWS :
    ∀ (l acc : List Nat), (∀ c ∈ acc, isWhitespaceCp c = false) →
      ∀ w ∈ split_whitespace_aux l acc, ∀ c ∈ w, isWhitespaceCp c = false := by
  intro l
  induction l with
  | nil =>
    intro acc hacc w hw c hc
    unfold split_whitespace_aux at hw
    split at hw
    · simp at hw
    · simp at hw; subst hw; exact hacc c (by simpa using hc)
  | cons a cs ih =>
    intro acc hacc w hw c hc
    unfold split_whitespace_aux at hw
    split at hw
    · split at hw
      · exact ih [] (by simp) w hw c hc
      · rcases List.mem_cons.mp hw with h | h
        · subst h; exact hacc c (by simpa using hc)
        · exact ih [] (by simp) w h c hc
    · rename_i ha
      refine ih (a :: acc) ?_ w hw c hc
      intro d hd
      rcases List.mem_cons.mp hd with h | h
      · subst h; simpa using ha
      · exact hacc d h

/-- Every scalar of every produced word comes from the input or the running
accumulator. -/
theorem mem_split_aux_subset :
    ∀ (l acc : List Nat) (w : List Nat), w ∈ split_whitespace_aux l acc →
      ∀ c ∈ w, c ∈ l ∨ c ∈ acc := by
  intro l
  induction l with
  | nil =>
    intro acc w hw c hc
    unfold split_whitespace_aux at hw
    split at hw
    · simp at hw
    · simp at hw; subst hw; right; simpa using hc
  | cons a cs ih =>
    intro acc w hw c hc
    unfold split_whitespace_aux at hw
    split at hw
    · split at hw
      · rcases ih [] w hw c hc with h | h
        · exact Or.inl (List.mem_cons_of_mem a h)
        · simp at h
      · rcases List.mem_cons.mp hw with h | h
        · subst h; right; simpa using hc
        · rcases ih [] w h c hc with h₂ | h₂
          · exact Or.inl (List.mem_cons_of_mem a h₂)
          · simp at h₂
    · rcases ih (a :: acc) w hw c hc with h | h
      · exact Or.inl (List.mem_cons_of_mem a h)
      · rcases List.mem_cons.mp h with h₂ | h₂
        · exact Or.inl (by simp [h₂])
        · exact Or.inr h₂

/-- On whitespace-free input the splitter returns the single remaining word
(or nothing when it is empty). -/
theorem split_aux_noWS_eq :
    ∀ (l acc : List Nat), (∀ c ∈ l, isWhitespaceCp c = false) →
      split_whitespace_aux l acc =
        if (acc.reverse ++ l).isEmpty then [] else [acc.reverse ++ l] := by
  intro l
  induction l with
  | nil =>
    intro acc _
    unfold split_whitespace_aux
    cases acc <;> simp
  | cons a cs ih =>
    intro acc hl
    unfold split_whitespace_aux
    rw [if_neg (by simp [hl a (List.mem_cons_self a cs)])]
    rw [ih (a :: acc) (fun c hc => hl c (List.mem_cons_of_mem a hc))]
    have h₂ : (a :: acc).reverse ++ cs = acc.reverse ++ a :: cs := by simp
    rw [h₂]

/-- Every scalar of the joined text is the hyphen or comes from a word. -/
theorem mem_joinHyphen :
    ∀ (ws : List (List Nat)) (c : Nat), c ∈ joinHyphen ws → c = 45 ∨ ∃ w ∈ ws, c ∈ w := by
  intro ws
  induction ws with
  | nil => intro c hc; simp [joinHyphen] at hc
  | cons w rest ih =>
    intro c hc
    cases rest with
    | nil => right; exact ⟨w, by simp, by simpa [joinHyphen] using hc⟩
    | cons w₂ rest₂ =>
      rw [show joinHyphen (w :: w₂ :: rest₂) = w ++ 45 :: joinHyphen (w₂ :: rest₂) from rfl] at hc
      rcases List.mem_append.mp hc with h | h
      · right; exact ⟨w, List.mem_cons_self w _, h⟩
      · rcases List.mem_cons.mp h with h₂ | h₂
        · exact Or.inl h₂
        · rcases ih c h₂ with h₃ | ⟨w₃, hw₃, hcw₃⟩
          · exact Or.inl h₃
          · right; exact ⟨w₃, List.mem_cons_of_mem w hw₃, hcw₃⟩

/-- Every scalar of a slug is good for the lowercase pass and is not
whitespace. -/
theorem slugify_chars (s : List Nat) :
    ∀ c ∈ slugify s, goodChar c = true ∧ isWhitespaceCp c = false := by
  intro c hc
  unfold slugify split_whitespace at hc
  rcases mem_joinHyphen _ c hc with rfl | ⟨w, hw, hcw⟩
  · exact ⟨by decide, rfl⟩
  · constructor
    · exact good_to_lowercase s [] c
        ((mem_split_aux_subset _ [] w hw c hcw).resolve_right (by simp))
    · exact mem_split_aux_noWS _ [] (by simp) w hw c hcw

/-- C10: `slugify` is idempotent — its output is already lowercase (a fixed
point of `to_lowercase`) and contains no whitespace, so a second application
leaves it unchanged. -/
theorem slugify_idempotent (s : List Nat) :
    slugify (slugify s) = slugify s ∧
    to_lowercase (slugify s) = slugify s ∧
    ∀ c ∈ slugify s, isWhitespaceCp c = false := by
  have hfix : to_lowercase (slugify s) = slugify s :=
    to_lowercase_fixed (slugify s) [] (fun c hc => (slugify_chars s c hc).1)
  have hnoWS : ∀ c ∈ slugify s, isWhitespaceCp c = false :=
    fun c hc => (slugify_chars s c hc).2
  refine ⟨?_, hfix, hnoWS⟩
  show joinHyphen (split_whitespace (to_lowercase (slugify s))) = slugify s
  rw [hfix]
  unfold split_whitespace
  rw [split_aux_noWS_eq (slugify s) [] hnoWS]
  simp only [List.reverse_nil, List.nil_append]
  cases h : slugify s with
  | nil => simp [joinHyphen]
  | cons a l => simp [joinHyphen]

end MiniJinja
